import Mathlib

/-!
Verification of the Gopher360 per-tick input-mapping engine
(`src/Windows/Gopher/Gopher.cpp`) against its natural-language
specification.

The embedding below translates the C++ source into Lean:

* `std::map<DWORD, bool>` / `std::map<DWORD, int>` per-button tracking maps
  become total functions `ℕ → Bool` / `ℕ → ℕ`.  `operator[]` on an absent
  key default-constructs the value (`false` / `0`), so a total function
  with those defaults has exactly the observable behaviour of the maps,
  and the `xboxClickStateExists` guard (which writes `false` for an unseen
  key) is the identity in this model.
* `std::list<WORD> _pressedKeys` becomes `List ℕ` (front = head).
* Machine floats become `ℚ`; the C library calls `sqrt` and `pow`, which
  have no exact rational counterpart, are abstracted as function
  parameters `sqrtQ`/`powQ` (theorems that need exactness of `sqrt` on a
  perfect square take it as a hypothesis, which real float `sqrt`
  satisfies on such inputs).
* A C cast `(int)x` from a float truncates toward zero; `ctrunc` models it.
* OS side effects (`SendInput`, `mouseEvent`, vibration, window calls)
  become an emitted `Event` trace; `GetCursorPos`/`SetCursorPos` become
  the `cursorX`/`cursorY` state fields.
* Constants that live in `Gopher.h` (not part of the sources here):
  `SLEEP_AMOUNT`, `FPS`, `TRIGGER_DEAD_ZONE` are modelled as parameters
  carried in `Config`; `MAXSHORT` is the Windows constant `32767`.
-/


/-! ### Windows constants used by the source -/

/-- Windows virtual-key code for the left mouse button. -/
def VK_LBUTTON : ℕ := 1


/-- Windows virtual-key code for the right mouse button. -/
def VK_RBUTTON : ℕ := 2


/-- Windows virtual-key code for the middle mouse button. -/
def VK_MBUTTON : ℕ := 4


def MOUSEEVENTF_LEFTDOWN : ℕ := 2

def MOUSEEVENTF_LEFTUP : ℕ := 4

def MOUSEEVENTF_RIGHTDOWN : ℕ := 8

def MOUSEEVENTF_RIGHTUP : ℕ := 16

def MOUSEEVENTF_MIDDLEDOWN : ℕ := 32

def MOUSEEVENTF_MIDDLEUP : ℕ := 64

def MOUSEEVENTF_WHEEL : ℕ := 2048

def MOUSEEVENTF_HWHEEL : ℕ := 4096


/-- Windows `MAXSHORT` constant, used by `getMult` to normalize. -/
def MAXSHORT : ℚ := 32767


def XINPUT_GAMEPAD_DPAD_UP : ℕ := 1

def XINPUT_GAMEPAD_DPAD_DOWN : ℕ := 2

def XINPUT_GAMEPAD_DPAD_LEFT : ℕ := 4

def XINPUT_GAMEPAD_DPAD_RIGHT : ℕ := 8

def XINPUT_GAMEPAD_START : ℕ := 16

def XINPUT_GAMEPAD_BACK : ℕ := 32

def XINPUT_GAMEPAD_LEFT_THUMB : ℕ := 64

def XINPUT_GAMEPAD_RIGHT_THUMB : ℕ := 128

def XINPUT_GAMEPAD_LEFT_SHOULDER : ℕ := 256

def XINPUT_GAMEPAD_RIGHT_SHOULDER : ℕ := 512

def XINPUT_GAMEPAD_A : ℕ := 4096

def XINPUT_GAMEPAD_B : ℕ := 8192

def XINPUT_GAMEPAD_X : ℕ := 16384

def XINPUT_GAMEPAD_Y : ℕ := 32768


/-! ### Per-button click-state tracking (`Gopher::setXboxClickState`) -/

/-- The five per-button tracking maps of the `Gopher` class:
`_xboxClickIsDown`, `_xboxClickIsUp`, `_xboxClickIsDownLong`,
`_xboxClickStateLastIteration`, `_xboxClickDownLength`, modelled as total
functions with the `std::map` default values (`false`, `0`). -/
structure ClickState where
  isDown : ℕ → Bool
  isUp : ℕ → Bool
  isDownLong : ℕ → Bool
  lastIteration : ℕ → Bool
  downLength : ℕ → ℕ


/-- The all-default click state (every button unseen: treated as up). -/
def initClick : ClickState :=
  { isDown := fun _ => false
    isUp := fun _ => false
    isDownLong := fun _ => false
    lastIteration := fun _ => false
    downLength := fun _ => 0 }


/-- `Gopher::setXboxClickState(STATE)`: updates the per-button edge flags
from the current snapshot's button bitmask `wButtons`.  `sleepAmount` is
the `SLEEP_AMOUNT` polling interval from `Gopher.h` (in milliseconds). -/
def setXboxClickState (sleepAmount : ℕ) (wButtons : ℕ) (s : ClickState)
    (STATE : ℕ) : ClickState :=
  -- _xboxClickIsDown[STATE] = false; _xboxClickIsUp[STATE] = false;
  let s0 : ClickState := { s with
    isDown := Function.update s.isDown STATE false
    isUp := Function.update s.isUp STATE false }
  -- if (!xboxClickStateExists(STATE)) _xboxClickStateLastIteration[STATE] = false;
  -- (identity in the total-function model: unseen keys already read false)
  -- bool isDown = (_currentState.Gamepad.wButtons & STATE) == STATE;
  let isdown : Bool := Nat.land wButtons STATE == STATE
  -- if (isDown && !_xboxClickStateLastIteration[STATE]) { ... }
  let s1 : ClickState :=
    if isdown && !(s0.lastIteration STATE) then
      { s0 with
        lastIteration := Function.update s0.lastIteration STATE true
        isDown := Function.update s0.isDown STATE true
        downLength := Function.update s0.downLength STATE 0
        isDownLong := Function.update s0.isDownLong STATE false }
    else s0
  -- if (isDown && _xboxClickStateLastIteration[STATE]) { ... }
  let s2 : ClickState :=
    if isdown && s1.lastIteration STATE then
      let len := s1.downLength STATE + 1
      { s1 with
        downLength := Function.update s1.downLength STATE len
        isDownLong :=
          if len * sleepAmount > 200 then
            Function.update s1.isDownLong STATE true
          else s1.isDownLong }
    else s1
  -- if (!isDown && _xboxClickStateLastIteration[STATE]) { ... }
  let s3 : ClickState :=
    if !isdown && s2.lastIteration STATE then
      { s2 with
        lastIteration := Function.update s2.lastIteration STATE false
        isUp := Function.update s2.isUp STATE true
        isDownLong := Function.update s2.isDownLong STATE false }
    else s2
  -- _xboxClickStateLastIteration[STATE] = isDown;
  { s3 with lastIteration := Function.update s3.lastIteration STATE isdown }


/-- Whether the snapshot bitmask reports button `b` as physically down:
`(wButtons & STATE) == STATE`. -/
def padPressed (wButtons b : ℕ) : Bool := Nat.land wButtons b == b


/-! ### Snapshot, configuration, state, emitted events -/

/-- One immutable controller read (`XINPUT_STATE.Gamepad`): button bitmask,
trigger magnitudes, analog stick axes (signed 16-bit values). -/
structure Snapshot where
  wButtons : ℕ
  bLeftTrigger : ℕ
  bRightTrigger : ℕ
  sThumbLX : ℤ
  sThumbLY : ℤ
  sThumbRX : ℤ
  sThumbRY : ℤ
  deriving DecidableEq


/-- One synthesized output to the OS sinks.  `keyDown`/`keyUp` are the
batched `inputKeyboardDown`/`inputKeyboardUp` calls (`SendInput` with one
entry per code), `mouse` is `mouseEvent(dwFlags, mouseData)` (the wheel
data is kept as the exact rational the float expression denotes),
`vibrate` is one blocking `pulseVibrate(duration, l, r)` call, and
`windowVisibility`/`oskToggle` abstract the window-management calls. -/
inductive Event where
  | keyDown (codes : List ℕ)
  | keyUp (codes : List ℕ)
  | mouse (dwFlags : ℕ) (mouseData : ℚ)
  | vibrate (duration l r : ℕ)
  | windowVisibility (hidden : Bool)
  | oskToggle
  deriving DecidableEq


/-- The configuration values loaded by `Gopher::loadConfigFile` (immutable
during the loop), plus the three compile-time constants that live in the
`Gopher.h` header, which is not among the sources: `SLEEP_AMOUNT` (polling
interval in ms), `FPS` (ticks-per-second time constant of `getMult`) and
`TRIGGER_DEAD_ZONE`.  Those three are modelled from the spec as abstract
parameters ("polling interval", "ticks-per-second", "fixed trigger
deadzone"). -/
structure Config where
  SLEEP_AMOUNT : ℕ
  FPS : ℚ
  TRIGGER_DEAD_ZONE : ℕ
  CONFIG_MOUSE_LEFT : ℕ
  CONFIG_MOUSE_RIGHT : ℕ
  CONFIG_MOUSE_MIDDLE : ℕ
  CONFIG_HIDE : ℕ
  CONFIG_DISABLE : ℕ
  CONFIG_DISABLE_VIBRATION : ℕ
  CONFIG_SPEED_CHANGE : ℕ
  CONFIG_OSK : ℕ
  GAMEPAD_DPAD_UP : List ℕ
  GAMEPAD_DPAD_DOWN : List ℕ
  GAMEPAD_DPAD_LEFT : List ℕ
  GAMEPAD_DPAD_RIGHT : List ℕ
  GAMEPAD_START : List ℕ
  GAMEPAD_BACK : List ℕ
  GAMEPAD_LEFT_THUMB : List ℕ
  GAMEPAD_RIGHT_THUMB : List ℕ
  GAMEPAD_LEFT_SHOULDER : List ℕ
  GAMEPAD_RIGHT_SHOULDER : List ℕ
  GAMEPAD_A : List ℕ
  GAMEPAD_B : List ℕ
  GAMEPAD_X : List ℕ
  GAMEPAD_Y : List ℕ
  GAMEPAD_TRIGGER_LEFT : List ℕ
  GAMEPAD_TRIGGER_RIGHT : List ℕ
  acceleration_factor : ℚ
  DEAD_ZONE : ℤ
  SCROLL_DEAD_ZONE : ℤ
  SCROLL_SPEED : ℚ
  speeds : List ℚ
  SWAP_THUMBSTICKS : ℤ


/-- The mutable per-loop state of the `Gopher` object, plus the OS cursor
position (read by `GetCursorPos`, written by `SetCursorPos`). -/
structure GopherState where
  click : ClickState
  pressedKeys : List ℕ
  disabled : Bool
  vibrationDisabled : Bool
  hidden : Bool
  lTriggerPrevious : Bool
  rTriggerPrevious : Bool
  speed_idx : ℕ
  speed : ℚ
  xRest : ℚ
  yRest : ℚ
  cursorX : ℤ
  cursorY : ℤ


/-- The freshly-constructed `Gopher` state (all members value-initialized;
`speed` is then set from `speeds[0]` by `loadConfigFile`, which the
theorems that need it set explicitly). -/
def initState : GopherState :=
  { click := initClick
    pressedKeys := []
    disabled := false
    vibrationDisabled := false
    hidden := false
    lTriggerPrevious := false
    rTriggerPrevious := false
    speed_idx := 0
    speed := 0
    xRest := 0
    yRest := 0
    cursorX := 0
    cursorY := 0 }


/-- `Gopher::pulseVibrate(duration, l, r)`: emits one vibration pulse
unless vibration is disabled (then every pulse call is a no-op). -/
def pulseVibrate (vibrationDisabled : Bool) (duration l r : ℕ) : List Event :=
  if vibrationDisabled then [] else [Event.vibrate duration l r]


/-! ### Analog motion (`getDelta`, `getMult`, cursor and scroll handlers) -/

/-- `Gopher::getDelta(short t)`: sanitizes an analog axis reading — values
above `32767` or below `-32768` are replaced by `0`, anything else is
returned unchanged. -/
def getDelta (t : ℤ) : ℤ :=
  let t1 := if t > 32767 then 0 else t
  let t2 := if t1 < -32768 then 0 else t1
  t2


/- The C library `sqrt` and `pow` on floats, abstracted: any function may
be plugged in; theorems that rely on exactness (e.g. `sqrt` of a perfect
square) take it as an explicit hypothesis. -/
variable (sqrtQ : ℚ → ℚ) (powQ : ℚ → ℚ → ℚ)


/-- `Gopher::getMult(lengthsq, deadzone, accel)`: normalizes a thumbstick
magnitude against `MAXSHORT`, optionally applies an acceleration power
curve, and divides by the `FPS` time constant. -/
def getMult (FPS : ℚ) (lengthsq deadzone accel : ℚ) : ℚ :=
  let mult := (sqrtQ lengthsq - deadzone) / (MAXSHORT - deadzone)
  let mult2 := if accel > 1 / 10000 then powQ mult accel else mult
  mult2 / FPS


/-- C cast `(int)x` on a float: truncation toward zero. -/
def ctrunc (q : ℚ) : ℤ := if q < 0 then ⌈q⌉ else ⌊q⌋


/-- The per-tick cursor displacement `(dx, dy)` computed by
`Gopher::handleMouseMovement`: zero inside the cursor dead zone, otherwise
the sanitized axis values scaled by `speed * getMult(...)`. -/
def cursorDelta (cfg : Config) (pad : Snapshot) (s : GopherState) : ℚ × ℚ :=
  let tx : ℤ := if cfg.SWAP_THUMBSTICKS = 0 then pad.sThumbLX else pad.sThumbRX
  let ty : ℤ := if cfg.SWAP_THUMBSTICKS = 0 then pad.sThumbLY else pad.sThumbRY
  let lengthsq : ℤ := tx * tx + ty * ty
  if lengthsq > cfg.DEAD_ZONE * cfg.DEAD_ZONE then
    let mult : ℚ := s.speed *
      getMult sqrtQ powQ cfg.FPS (lengthsq : ℚ) (cfg.DEAD_ZONE : ℚ)
        cfg.acceleration_factor
    ((getDelta tx : ℚ) * mult, (getDelta ty : ℚ) * mult)
  else (0, 0)


/-- `Gopher::handleMouseMovement`: adds the carried fractional remainders
to the cursor position, applies this tick's displacement (`x += dx`,
`y -= dy`), stores the new fractional remainders, and moves the cursor to
the truncated integer coordinates (`SetCursorPos((int)x, (int)y)`). -/
def handleMouseMovement (cfg : Config) (pad : Snapshot) (s : GopherState) :
    GopherState :=
  let d := cursorDelta sqrtQ powQ cfg pad s
  let x : ℚ := (s.cursorX : ℚ) + s.xRest + d.1
  let y : ℚ := (s.cursorY : ℚ) + s.yRest - d.2
  { s with
    xRest := x - (ctrunc x : ℚ)
    yRest := y - (ctrunc y : ℚ)
    cursorX := ctrunc x
    cursorY := ctrunc y }


/-- The sanitized horizontal scroll-stick axis read by
`Gopher::handleScrolling`. -/
def scrollTX (cfg : Config) (pad : Snapshot) : ℚ :=
  (getDelta (if cfg.SWAP_THUMBSTICKS = 0 then pad.sThumbRX else pad.sThumbLX) : ℚ)


/-- The sanitized vertical scroll-stick axis read by
`Gopher::handleScrolling`. -/
def scrollTY (cfg : Config) (pad : Snapshot) : ℚ :=
  (getDelta (if cfg.SWAP_THUMBSTICKS = 0 then pad.sThumbRY else pad.sThumbLY) : ℚ)


/-- `Gopher::handleScrolling`: reads the scroll stick through `getDelta`,
and when the combined magnitude exceeds the scroll dead zone emits one
horizontal and one vertical wheel event scaled by the per-axis multiplier
and `SCROLL_SPEED`. -/
def handleScrolling (cfg : Config) (pad : Snapshot) : List Event :=
  let tx : ℚ := scrollTX cfg pad
  let ty : ℚ := scrollTY cfg pad
  let magnitude : ℚ := sqrtQ (tx * tx + ty * ty)
  if magnitude > (cfg.SCROLL_DEAD_ZONE : ℚ) then
    [Event.mouse MOUSEEVENTF_HWHEEL
      (tx * getMult sqrtQ powQ cfg.FPS (tx * tx) (cfg.SCROLL_DEAD_ZONE : ℚ) 0 *
        cfg.SCROLL_SPEED),
     Event.mouse MOUSEEVENTF_WHEEL
      (ty * getMult sqrtQ powQ cfg.FPS (ty * ty) (cfg.SCROLL_DEAD_ZONE : ℚ) 0 *
        cfg.SCROLL_SPEED)]
  else []


/-! ### Key/mouse dispatch and the disable toggle -/

/-- `Gopher::erasePressedKey(key)`: removes the first matching entry from
the pressed-key list (the returned bool is unused by all callers). -/
def erasePressedKey (l : List ℕ) (key : ℕ) : List ℕ := l.erase key


/-- Whether a pressed-key entry is one of the three mouse-button virtual
codes handled by the drain loop's `switch`. -/
def isMouseCode (k : ℕ) : Bool :=
  k == VK_LBUTTON || k == VK_RBUTTON || k == VK_MBUTTON


/-- The mouse-up event the drain loop's `switch` emits for a mouse-button
code, `none` for a keyboard code. -/
def mouseUpFor (k : ℕ) : Option Event :=
  if k == VK_LBUTTON then some (Event.mouse MOUSEEVENTF_LEFTUP 0)
  else if k == VK_RBUTTON then some (Event.mouse MOUSEEVENTF_RIGHTUP 0)
  else if k == VK_MBUTTON then some (Event.mouse MOUSEEVENTF_MIDDLEUP 0)
  else none


/-- The `while (!_pressedKeys.empty())` drain loop of
`Gopher::handleDisableButton`: walks the pressed-key list front to back,
emitting a mouse-up immediately for each mouse-button code and collecting
every other code into the `keyboardEvents` batch (in order). -/
def classifyPressed : List ℕ → List Event × List ℕ
  | [] => ([], [])
  | k :: rest =>
    let r := classifyPressed rest
    if k == VK_LBUTTON then (Event.mouse MOUSEEVENTF_LEFTUP 0 :: r.1, r.2)
    else if k == VK_RBUTTON then (Event.mouse MOUSEEVENTF_RIGHTUP 0 :: r.1, r.2)
    else if k == VK_MBUTTON then (Event.mouse MOUSEEVENTF_MIDDLEUP 0 :: r.1, r.2)
    else (r.1, k :: r.2)


/-- `Gopher::handleDisableButton`: edge-checks the disable command button;
on a press edge toggles `_disabled`.  On the transition into the disabled
state it drains the pressed-key list (mouse-ups individually, one batched
key-up for the rest) and pulses vibration (400 ms, intensity 10000); on
the transition back to enabled it only pulses (400 ms, 65000). -/
def handleDisableButton (cfg : Config) (pad : Snapshot) (s : GopherState) :
    GopherState × List Event :=
  let click := setXboxClickState cfg.SLEEP_AMOUNT pad.wButtons s.click
    cfg.CONFIG_DISABLE
  let s1 : GopherState := { s with click := click }
  if click.isDown cfg.CONFIG_DISABLE then
    let disabled := !s1.disabled
    if disabled then
      let r := classifyPressed s1.pressedKeys
      let evs := r.1 ++ (if r.2.isEmpty then [] else [Event.keyUp r.2])
      ({ s1 with disabled := true, pressedKeys := [] },
       evs ++ pulseVibrate s1.vibrationDisabled 400 10000 10000)
    else
      ({ s1 with disabled := false },
       pulseVibrate s1.vibrationDisabled 400 65000 65000)
  else (s1, [])


/-- `Gopher::handleVibrationButton`: edge-checks the vibration-toggle
command button and flips `_vibrationDisabled` (the `Sleep(1000)` and the
`printf` have no modelled effect). -/
def handleVibrationButton (cfg : Config) (pad : Snapshot) (s : GopherState) :
    GopherState :=
  let click := setXboxClickState cfg.SLEEP_AMOUNT pad.wButtons s.click
    cfg.CONFIG_DISABLE_VIBRATION
  let s1 : GopherState := { s with click := click }
  if click.isDown cfg.CONFIG_DISABLE_VIBRATION then
    { s1 with vibrationDisabled := !s1.vibrationDisabled }
  else s1


/-- `Gopher::handleTriggers(lKey, rKey)`: analog triggers are compared
against the fixed trigger dead zone; a change from the previous tick's
boolean emits a key-down or key-up for the mapped codes.  Note: the
pressed-key list is not touched. -/
def handleTriggers (TRIGGER_DEAD_ZONE : ℕ) (lKey rKey : List ℕ)
    (pad : Snapshot) (s : GopherState) : GopherState × List Event :=
  let lTriggerIsDown : Bool := pad.bLeftTrigger > TRIGGER_DEAD_ZONE
  let rTriggerIsDown : Bool := pad.bRightTrigger > TRIGGER_DEAD_ZONE
  let rl : GopherState × List Event :=
    if lTriggerIsDown ≠ s.lTriggerPrevious then
      ({ s with lTriggerPrevious := lTriggerIsDown },
       if lTriggerIsDown then [Event.keyDown lKey] else [Event.keyUp lKey])
    else (s, [])
  let s1 := rl.1
  let rr : GopherState × List Event :=
    if rTriggerIsDown ≠ s1.rTriggerPrevious then
      ({ s1 with rTriggerPrevious := rTriggerIsDown },
       if rTriggerIsDown then [Event.keyDown rKey] else [Event.keyUp rKey])
    else (s1, [])
  (rr.1, rl.2 ++ rr.2)


/-- `Gopher::mapKeyboard(STATE, keys)`: edge-checks the button; on a press
edge emits a batched key-down and appends every code to the pressed-key
list; on a release edge emits a batched key-up and erases each code. -/
def mapKeyboard (sleepAmount : ℕ) (pad : Snapshot) (s : GopherState)
    (STATE : ℕ) (keys : List ℕ) : GopherState × List Event :=
  let click := setXboxClickState sleepAmount pad.wButtons s.click STATE
  let s1 : GopherState := { s with click := click }
  let rd : GopherState × List Event :=
    if click.isDown STATE then
      ({ s1 with pressedKeys := s1.pressedKeys ++ keys },
       [Event.keyDown keys])
    else (s1, [])
  let s2 := rd.1
  let ru : GopherState × List Event :=
    if click.isUp STATE then
      ({ s2 with pressedKeys := keys.foldl erasePressedKey s2.pressedKeys },
       [Event.keyUp keys])
    else (s2, [])
  (ru.1, rd.2 ++ ru.2)


/-- The virtual-key code `Gopher::mapMouseClick` records in the
pressed-key list for a given mouse-down flag (nothing is recorded for an
unrecognized flag, mirroring the `else if` chain). -/
def vkForMouseDown (keyDown : ℕ) : List ℕ :=
  if keyDown == MOUSEEVENTF_LEFTDOWN then [VK_LBUTTON]
  else if keyDown == MOUSEEVENTF_RIGHTDOWN then [VK_RBUTTON]
  else if keyDown == MOUSEEVENTF_MIDDLEDOWN then [VK_MBUTTON]
  else []


/-- The virtual-key code `Gopher::mapMouseClick` erases for a given
mouse-up flag. -/
def vkForMouseUp (keyUp : ℕ) : List ℕ :=
  if keyUp == MOUSEEVENTF_LEFTUP then [VK_LBUTTON]
  else if keyUp == MOUSEEVENTF_RIGHTUP then [VK_RBUTTON]
  else if keyUp == MOUSEEVENTF_MIDDLEUP then [VK_MBUTTON]
  else []


/-- `Gopher::mapMouseClick(STATE, keyDown, keyUp)`: edge-checks the
button; on a press edge emits the mouse-down and records the virtual-key
code; on a release edge emits the mouse-up and erases it (the commented
long-press block in the source is dead code). -/
def mapMouseClick (sleepAmount : ℕ) (pad : Snapshot) (s : GopherState)
    (STATE keyDown keyUp : ℕ) : GopherState × List Event :=
  let click := setXboxClickState sleepAmount pad.wButtons s.click STATE
  let s1 : GopherState := { s with click := click }
  let rd : GopherState × List Event :=
    if click.isDown STATE then
      ({ s1 with pressedKeys := s1.pressedKeys ++ vkForMouseDown keyDown },
       [Event.mouse keyDown 0])
    else (s1, [])
  let s2 := rd.1
  let ru : GopherState × List Event :=
    if click.isUp STATE then
      ({ s2 with
          pressedKeys := (vkForMouseUp keyUp).foldl erasePressedKey
            s2.pressedKeys },
       [Event.mouse keyUp 0])
    else (s2, [])
  (ru.1, rd.2 ++ ru.2)


/-- The speed-cycling advance of `Gopher::loop`: `speed_idx++`, wrapping
to `0` once it reaches the table length. -/
def speedAdvance (speeds : List ℚ) (i : ℕ) : ℕ :=
  if i + 1 ≥ speeds.length then 0 else i + 1


/-- One guarded keyboard mapping step of `Gopher::loop`
(`if (!BINDING.empty()) mapKeyboard(STATE, BINDING);`), threading the
state and appending the emitted events. -/
def mapKeyboardIf (sleepAmount : ℕ) (pad : Snapshot)
    (r : GopherState × List Event) (STATE : ℕ) (keys : List ℕ) :
    GopherState × List Event :=
  if keys.isEmpty then r
  else
    let r2 := mapKeyboard sleepAmount pad r.1 STATE keys
    (r2.1, r.2 ++ r2.2)


/-- The three guarded mouse-click mappings of `Gopher::loop`
(`if (CONFIG_MOUSE_LEFT) mapMouseClick(...)`, then right, then middle). -/
def loopMouseButtons (cfg : Config) (pad : Snapshot) (s : GopherState) :
    GopherState × List Event :=
  let rML :=
    if cfg.CONFIG_MOUSE_LEFT ≠ 0 then
      mapMouseClick cfg.SLEEP_AMOUNT pad s cfg.CONFIG_MOUSE_LEFT
        MOUSEEVENTF_LEFTDOWN MOUSEEVENTF_LEFTUP
    else (s, [])
  let rMR :=
    if cfg.CONFIG_MOUSE_RIGHT ≠ 0 then
      mapMouseClick cfg.SLEEP_AMOUNT pad rML.1 cfg.CONFIG_MOUSE_RIGHT
        MOUSEEVENTF_RIGHTDOWN MOUSEEVENTF_RIGHTUP
    else (rML.1, [])
  let rMM :=
    if cfg.CONFIG_MOUSE_MIDDLE ≠ 0 then
      mapMouseClick cfg.SLEEP_AMOUNT pad rMR.1 cfg.CONFIG_MOUSE_MIDDLE
        MOUSEEVENTF_MIDDLEDOWN MOUSEEVENTF_MIDDLEUP
    else (rMR.1, [])
  (rMM.1, rML.2 ++ rMR.2 ++ rMM.2)


/-- The hide-console command block of `Gopher::loop`: edge-checks
`CONFIG_HIDE` (when bound) and toggles window visibility on a press. -/
def loopHide (cfg : Config) (pad : Snapshot) (s : GopherState) :
    GopherState × List Event :=
  if cfg.CONFIG_HIDE ≠ 0 then
    let click := setXboxClickState cfg.SLEEP_AMOUNT pad.wButtons s.click
      cfg.CONFIG_HIDE
    let sh : GopherState := { s with click := click }
    if click.isDown cfg.CONFIG_HIDE then
      ({ sh with hidden := !sh.hidden },
       [Event.windowVisibility (!sh.hidden)])
    else (sh, [])
  else (s, [])


/-- The on-screen-keyboard command block of `Gopher::loop`: edge-checks
`CONFIG_OSK` (when bound); the external window lookup and
show/restore/minimize outcome is abstracted as one event. -/
def loopOsk (cfg : Config) (pad : Snapshot) (s : GopherState) :
    GopherState × List Event :=
  if cfg.CONFIG_OSK ≠ 0 then
    let click := setXboxClickState cfg.SLEEP_AMOUNT pad.wButtons s.click
      cfg.CONFIG_OSK
    let so : GopherState := { s with click := click }
    if click.isDown cfg.CONFIG_OSK then (so, [Event.oskToggle])
    else (so, [])
  else (s, [])


/-- The speed-cycling block of `Gopher::loop`: edge-checks
`CONFIG_SPEED_CHANGE` (unconditionally) and on a press advances the speed
index, updates the active speed and pulses vibration (450 ms, 65000). -/
def loopSpeedChange (cfg : Config) (pad : Snapshot) (s : GopherState) :
    GopherState × List Event :=
  let click := setXboxClickState cfg.SLEEP_AMOUNT pad.wButtons s.click
    cfg.CONFIG_SPEED_CHANGE
  let sS : GopherState := { s with click := click }
  if click.isDown cfg.CONFIG_SPEED_CHANGE then
    let idx := speedAdvance cfg.speeds sS.speed_idx
    ({ sS with speed_idx := idx, speed := cfg.speeds.getD idx 0 },
     pulseVibrate sS.vibrationDisabled 450 65000 65000)
  else (sS, [])


/-- The fourteen guarded `mapKeyboard` calls of `Gopher::loop`, in source
order. -/
def loopKeyboardMaps (cfg : Config) (pad : Snapshot) (s : GopherState) :
    GopherState × List Event :=
  let k0 : GopherState × List Event := (s, [])
  let k1 := mapKeyboardIf cfg.SLEEP_AMOUNT pad k0 XINPUT_GAMEPAD_DPAD_UP
    cfg.GAMEPAD_DPAD_UP
  let k2 := mapKeyboardIf cfg.SLEEP_AMOUNT pad k1 XINPUT_GAMEPAD_DPAD_DOWN
    cfg.GAMEPAD_DPAD_DOWN
  let k3 := mapKeyboardIf cfg.SLEEP_AMOUNT pad k2 XINPUT_GAMEPAD_DPAD_LEFT
    cfg.GAMEPAD_DPAD_LEFT
  let k4 := mapKeyboardIf cfg.SLEEP_AMOUNT pad k3 XINPUT_GAMEPAD_DPAD_RIGHT
    cfg.GAMEPAD_DPAD_RIGHT
  let k5 := mapKeyboardIf cfg.SLEEP_AMOUNT pad k4 XINPUT_GAMEPAD_START
    cfg.GAMEPAD_START
  let k6 := mapKeyboardIf cfg.SLEEP_AMOUNT pad k5 XINPUT_GAMEPAD_BACK
    cfg.GAMEPAD_BACK
  let k7 := mapKeyboardIf cfg.SLEEP_AMOUNT pad k6 XINPUT_GAMEPAD_LEFT_THUMB
    cfg.GAMEPAD_LEFT_THUMB
  let k8 := mapKeyboardIf cfg.SLEEP_AMOUNT pad k7 XINPUT_GAMEPAD_RIGHT_THUMB
    cfg.GAMEPAD_RIGHT_THUMB
  let k9 := mapKeyboardIf cfg.SLEEP_AMOUNT pad k8
    XINPUT_GAMEPAD_LEFT_SHOULDER cfg.GAMEPAD_LEFT_SHOULDER
  let k10 := mapKeyboardIf cfg.SLEEP_AMOUNT pad k9
    XINPUT_GAMEPAD_RIGHT_SHOULDER cfg.GAMEPAD_RIGHT_SHOULDER
  let k11 := mapKeyboardIf cfg.SLEEP_AMOUNT pad k10 XINPUT_GAMEPAD_A
    cfg.GAMEPAD_A
  let k12 := mapKeyboardIf cfg.SLEEP_AMOUNT pad k11 XINPUT_GAMEPAD_B
    cfg.GAMEPAD_B
  let k13 := mapKeyboardIf cfg.SLEEP_AMOUNT pad k12 XINPUT_GAMEPAD_X
    cfg.GAMEPAD_X
  let k14 := mapKeyboardIf cfg.SLEEP_AMOUNT pad k13 XINPUT_GAMEPAD_Y
    cfg.GAMEPAD_Y
  k14


/-- `Gopher::loop`: one tick.  Reads the snapshot, runs the disable
toggle, returns early while disabled, and otherwise runs the vibration
toggle, cursor movement, scrolling, the three mouse-click mappings, the
hide and on-screen-keyboard commands, speed cycling, trigger handling and
every configured button mapping, in source order. -/
def gopherLoop (cfg : Config) (pad : Snapshot) (s : GopherState) :
    GopherState × List Event :=
  -- Sleep(SLEEP_AMOUNT); _currentState = _controller->GetState();
  let rD := handleDisableButton cfg pad s
  if rD.1.disabled then rD
  else
    let sV := handleVibrationButton cfg pad rD.1
    let sMM := handleMouseMovement sqrtQ powQ cfg pad sV
    let evScroll := handleScrolling sqrtQ powQ cfg pad
    let rMB := loopMouseButtons cfg pad sMM
    let rH := loopHide cfg pad rMB.1
    let rO := loopOsk cfg pad rH.1
    let rS := loopSpeedChange cfg pad rO.1
    let rT := handleTriggers cfg.TRIGGER_DEAD_ZONE cfg.GAMEPAD_TRIGGER_LEFT
      cfg.GAMEPAD_TRIGGER_RIGHT pad rS.1
    let rK := loopKeyboardMaps cfg pad rT.1
    (rK.1,
     rD.2 ++ evScroll ++ rMB.2 ++ rH.2 ++ rO.2 ++ rS.2 ++ rT.2 ++ rK.2)


/-! ### Free sequences of dispatches (for the PressedKeySet invariant)

`Gopher::loop` performs, per tick, a fixed series of `mapKeyboard`,
`mapMouseClick` and `handleTriggers` calls, each button carrying a fixed
configured output (the configuration is loaded once).  An `Action` is one
such dispatch with the snapshot it observes; a `List Action` is an
arbitrary interleaving of per-tick dispatches, generalizing every
sequence of ticks the loop can perform. -/

/-- The fixed configured output of one mapped button: a keyboard key list
or one of the three mouse buttons. -/
inductive ButtonMapping where
  | keyboard (keys : List ℕ)
  | mouseLeft
  | mouseRight
  | mouseMiddle


/-- One dispatch as issued by the loop: a mapped button observed against
a snapshot, or the trigger handler observed against a snapshot. -/
inductive Dispatch where
  | button (STATE : ℕ) (pad : Snapshot)
  | trigger (pad : Snapshot)
  deriving DecidableEq


/-- Validity of an action with respect to a finite domain of configured
buttons. -/
def Dispatch.inDom (D : Finset ℕ) : Dispatch → Prop
  | .button STATE _ => STATE ∈ D
  | .trigger _ => True


instance (D : Finset ℕ) : (a : Dispatch) → Decidable (a.inDom D)
  | .button STATE _ => inferInstanceAs (Decidable (STATE ∈ D))
  | .trigger _ => inferInstanceAs (Decidable True)


/-- Runs one dispatch.  Events are tagged with `true` when they were
emitted by the trigger handler.  `bmap` is the configured output per
button, `lKey`/`rKey` the trigger bindings. -/
def dispatchAction (sleepAmount TDZ : ℕ) (bmap : ℕ → ButtonMapping)
    (lKey rKey : List ℕ) (s : GopherState) :
    Dispatch → GopherState × List (Bool × Event)
  | .button STATE pad =>
    let r := match bmap STATE with
      | .keyboard keys => mapKeyboard sleepAmount pad s STATE keys
      | .mouseLeft => mapMouseClick sleepAmount pad s STATE
          MOUSEEVENTF_LEFTDOWN MOUSEEVENTF_LEFTUP
      | .mouseRight => mapMouseClick sleepAmount pad s STATE
          MOUSEEVENTF_RIGHTDOWN MOUSEEVENTF_RIGHTUP
      | .mouseMiddle => mapMouseClick sleepAmount pad s STATE
          MOUSEEVENTF_MIDDLEDOWN MOUSEEVENTF_MIDDLEUP
    (r.1, r.2.map (fun e => (false, e)))
  | .trigger pad =>
    let r := handleTriggers TDZ lKey rKey pad s
    (r.1, r.2.map (fun e => (true, e)))


/-- Runs a sequence of dispatches, concatenating the tagged traces. -/
def runActions (sleepAmount TDZ : ℕ) (bmap : ℕ → ButtonMapping)
    (lKey rKey : List ℕ) :
    GopherState → List Dispatch → GopherState × List (Bool × Event)
  | s, [] => (s, [])
  | s, a :: rest =>
    let r := dispatchAction sleepAmount TDZ bmap lKey rKey s a
    let r2 := runActions sleepAmount TDZ bmap lKey rKey r.1 rest
    (r2.1, r.2 ++ r2.2)


/-- How many down events for code `c` one emitted event carries: the
multiplicity of `c` in a batched key-down, or `1` for the mouse-down
whose virtual-key code is `c`. -/
def evDown (c : ℕ) : Event → ℕ
  | .keyDown codes => codes.count c
  | .mouse f _ =>
    if (f == MOUSEEVENTF_LEFTDOWN && c == VK_LBUTTON) ||
       (f == MOUSEEVENTF_RIGHTDOWN && c == VK_RBUTTON) ||
       (f == MOUSEEVENTF_MIDDLEDOWN && c == VK_MBUTTON) then 1 else 0
  | _ => 0


/-- How many up events for code `c` one emitted event carries. -/
def evUp (c : ℕ) : Event → ℕ
  | .keyUp codes => codes.count c
  | .mouse f _ =>
    if (f == MOUSEEVENTF_LEFTUP && c == VK_LBUTTON) ||
       (f == MOUSEEVENTF_RIGHTUP && c == VK_RBUTTON) ||
       (f == MOUSEEVENTF_MIDDLEUP && c == VK_MBUTTON) then 1 else 0
  | _ => 0


/-- Total down events for `c` in a tagged trace (trigger-emitted
included). -/
def totalDown (tr : List (Bool × Event)) (c : ℕ) : ℕ :=
  (tr.map (fun p => evDown c p.2)).sum


/-- Total up events for `c` in a tagged trace (trigger-emitted
included). -/
def totalUp (tr : List (Bool × Event)) (c : ℕ) : ℕ :=
  (tr.map (fun p => evUp c p.2)).sum


/-- Down events for `c` emitted by button dispatches only (excluding the
trigger handler's events). -/
def trackedDown (tr : List (Bool × Event)) (c : ℕ) : ℕ :=
  (tr.map (fun p => if p.1 then 0 else evDown c p.2)).sum


/-- Up events for `c` emitted by button dispatches only. -/
def trackedUp (tr : List (Bool × Event)) (c : ℕ) : ℕ :=
  (tr.map (fun p => if p.1 then 0 else evUp c p.2)).sum


/-- The multiset of codes a held button contributes to the pressed-key
list. -/
def weightOf : ButtonMapping → Multiset ℕ
  | .keyboard keys => (keys : Multiset ℕ)
  | .mouseLeft => {VK_LBUTTON}
  | .mouseRight => {VK_RBUTTON}
  | .mouseMiddle => {VK_MBUTTON}


/-- The inductive invariant tying the pressed-key list to the set of
currently-held configured buttons: buttons outside the domain are not
held, and the pressed-key multiset is exactly the sum of the outputs of
the held buttons. -/
def InvD (bmap : ℕ → ButtonMapping) (D : Finset ℕ) (s : GopherState) :
    Prop :=
  (∀ b, b ∉ D → s.click.lastIteration b = false) ∧
  (s.pressedKeys : Multiset ℕ)
    = ∑ b ∈ D, (if s.click.lastIteration b then weightOf (bmap b) else 0)


/-! ### Concrete sample inputs used by the witnesses -/

/-- A representative loaded configuration (command buttons bound to
distinct pad bits, default dead zones and speeds). -/
def sampleConfig : Config :=
  { SLEEP_AMOUNT := 50
    FPS := 150
    TRIGGER_DEAD_ZONE := 30
    CONFIG_MOUSE_LEFT := XINPUT_GAMEPAD_A
    CONFIG_MOUSE_RIGHT := XINPUT_GAMEPAD_X
    CONFIG_MOUSE_MIDDLE := XINPUT_GAMEPAD_LEFT_THUMB
    CONFIG_HIDE := XINPUT_GAMEPAD_BACK
    CONFIG_DISABLE := XINPUT_GAMEPAD_START
    CONFIG_DISABLE_VIBRATION := XINPUT_GAMEPAD_RIGHT_THUMB
    CONFIG_SPEED_CHANGE := XINPUT_GAMEPAD_RIGHT_SHOULDER
    CONFIG_OSK := XINPUT_GAMEPAD_B
    GAMEPAD_DPAD_UP := [38]
    GAMEPAD_DPAD_DOWN := [40]
    GAMEPAD_DPAD_LEFT := [37]
    GAMEPAD_DPAD_RIGHT := [39]
    GAMEPAD_START := []
    GAMEPAD_BACK := []
    GAMEPAD_LEFT_THUMB := []
    GAMEPAD_RIGHT_THUMB := []
    GAMEPAD_LEFT_SHOULDER := []
    GAMEPAD_RIGHT_SHOULDER := []
    GAMEPAD_A := [65]
    GAMEPAD_B := [66]
    GAMEPAD_X := []
    GAMEPAD_Y := []
    GAMEPAD_TRIGGER_LEFT := [160]
    GAMEPAD_TRIGGER_RIGHT := [161]
    acceleration_factor := 0
    DEAD_ZONE := 6000
    SCROLL_DEAD_ZONE := 5000
    SCROLL_SPEED := 1 / 10
    speeds := [1 / 200, 3 / 200, 1 / 40, 1 / 250]
    SWAP_THUMBSTICKS := 0 }


/-- A snapshot with nothing pressed and sticks centered. -/
def padIdle : Snapshot :=
  { wButtons := 0
    bLeftTrigger := 0
    bRightTrigger := 0
    sThumbLX := 0
    sThumbLY := 0
    sThumbRX := 0
    sThumbRY := 0 }


/-- A snapshot holding only the disable command button
(`sampleConfig.CONFIG_DISABLE = XINPUT_GAMEPAD_START`). -/
def padDisable : Snapshot := { padIdle with wButtons := XINPUT_GAMEPAD_START }


/-- A snapshot with the cursor stick at `(3000, 4000)` (magnitude 5000,
inside the default 6000 dead zone). -/
def padStick3000 : Snapshot := { padIdle with sThumbLX := 3000, sThumbLY := 4000 }


/-- A snapshot with the scroll stick at `(100, 30000)`: combined
magnitude above the scroll dead zone, horizontal axis far below it. -/
def padScroll : Snapshot := { padIdle with sThumbRX := 100, sThumbRY := 30000 }


/-- `n` successive `setXboxClickState` observations of button `b` against
the same snapshot bitmask (one per tick). -/
def observeTicks (sl w b : ℕ) (s : ClickState) : ℕ → ClickState
  | 0 => s
  | n + 1 => setXboxClickState sl w (observeTicks sl w b s n) b


/-- The common press/release behaviour of `mapKeyboard` and
`mapMouseClick`, abstracted: which codes are pushed/erased and which
single event is emitted on each edge. -/
def MapSummary (sl : ℕ) (pad : Snapshot) (s : GopherState) (STATE : ℕ)
    (keysEff : List ℕ) (dEv uEv : Event)
    (r : GopherState × List Event) : Prop :=
  r.1.click = setXboxClickState sl pad.wButtons s.click STATE ∧
  (padPressed pad.wButtons STATE = true →
    s.click.lastIteration STATE = false →
    r.1.pressedKeys = s.pressedKeys ++ keysEff ∧ r.2 = [dEv]) ∧
  (padPressed pad.wButtons STATE = false →
    s.click.lastIteration STATE = true →
    r.1.pressedKeys = keysEff.foldl erasePressedKey s.pressedKeys ∧
      r.2 = [uEv]) ∧
  (padPressed pad.wButtons STATE = s.click.lastIteration STATE →
    r.1.pressedKeys = s.pressedKeys ∧ r.2 = [])

/-! ### Theorems -/


theorem setXbox_lastIteration_self (sl w : ℕ) (s : ClickState) (b : ℕ) :
    (setXboxClickState sl w s b).lastIteration b = padPressed w b := by
  unfold setXboxClickState padPressed
  cases hd : (Nat.land w b == b) <;> cases hl : s.lastIteration b <;>
    simp [hd, hl, Function.update_same, Function.update_noteq]


theorem setXbox_lastIteration_other (sl w : ℕ) (s : ClickState) {a b : ℕ}
    (h : a ≠ b) :
    (setXboxClickState sl w s b).lastIteration a = s.lastIteration a := by
  unfold setXboxClickState
  cases hd : (Nat.land w b == b) <;> cases hl : s.lastIteration b <;>
    simp [hd, hl, Function.update_same, Function.update_noteq h]


theorem setXbox_isDown_self (sl w : ℕ) (s : ClickState) (b : ℕ) :
    (setXboxClickState sl w s b).isDown b
      = (padPressed w b && !s.lastIteration b) := by
  unfold setXboxClickState padPressed
  cases hd : (Nat.land w b == b) <;> cases hl : s.lastIteration b <;>
    simp [hd, hl, Function.update_same, Function.update_noteq]


theorem setXbox_isUp_self (sl w : ℕ) (s : ClickState) (b : ℕ) :
    (setXboxClickState sl w s b).isUp b
      = (!padPressed w b && s.lastIteration b) := by
  unfold setXboxClickState padPressed
  cases hd : (Nat.land w b == b) <;> cases hl : s.lastIteration b <;>
    simp [hd, hl, Function.update_same, Function.update_noteq]


theorem setXbox_downLength_self (sl w : ℕ) (s : ClickState) (b : ℕ) :
    (setXboxClickState sl w s b).downLength b
      = if padPressed w b then
          (if s.lastIteration b then s.downLength b + 1 else 1)
        else s.downLength b := by
  unfold setXboxClickState padPressed
  cases hd : (Nat.land w b == b) <;> cases hl : s.lastIteration b <;>
    simp [hd, hl, Function.update_same, Function.update_noteq]


theorem setXbox_isDownLong_self (sl w : ℕ) (s : ClickState) (b : ℕ) :
    (setXboxClickState sl w s b).isDownLong b
      = if padPressed w b then
          (if s.lastIteration b then
            (if (s.downLength b + 1) * sl > 200 then true else s.isDownLong b)
          else decide (1 * sl > 200))
        else (if s.lastIteration b then false else s.isDownLong b) := by
  unfold setXboxClickState padPressed
  cases hd : (Nat.land w b == b) <;> cases hl : s.lastIteration b <;>
    simp [hd, hl, Function.update_same, Function.update_noteq] <;>
    split <;> simp [Function.update_same] <;> omega


/-! ### Shape lemmas for the dispatch functions -/

theorem mapKeyboard_shape (sl : ℕ) (pad : Snapshot) (s : GopherState)
    (STATE : ℕ) (keys : List ℕ) :
    (mapKeyboard sl pad s STATE keys).1.click
        = setXboxClickState sl pad.wButtons s.click STATE ∧
    (mapKeyboard sl pad s STATE keys).1.disabled = s.disabled ∧
    (mapKeyboard sl pad s STATE keys).1.vibrationDisabled
        = s.vibrationDisabled ∧
    (mapKeyboard sl pad s STATE keys).1.hidden = s.hidden ∧
    (mapKeyboard sl pad s STATE keys).1.lTriggerPrevious
        = s.lTriggerPrevious ∧
    (mapKeyboard sl pad s STATE keys).1.rTriggerPrevious
        = s.rTriggerPrevious ∧
    (mapKeyboard sl pad s STATE keys).1.speed_idx = s.speed_idx ∧
    (mapKeyboard sl pad s STATE keys).1.speed = s.speed ∧
    (mapKeyboard sl pad s STATE keys).1.xRest = s.xRest ∧
    (mapKeyboard sl pad s STATE keys).1.yRest = s.yRest ∧
    (mapKeyboard sl pad s STATE keys).1.cursorX = s.cursorX ∧
    (mapKeyboard sl pad s STATE keys).1.cursorY = s.cursorY ∧
    (padPressed pad.wButtons STATE = true →
      s.click.lastIteration STATE = false →
      (mapKeyboard sl pad s STATE keys).1.pressedKeys
          = s.pressedKeys ++ keys ∧
      (mapKeyboard sl pad s STATE keys).2 = [Event.keyDown keys]) ∧
    (padPressed pad.wButtons STATE = false →
      s.click.lastIteration STATE = true →
      (mapKeyboard sl pad s STATE keys).1.pressedKeys
          = keys.foldl erasePressedKey s.pressedKeys ∧
      (mapKeyboard sl pad s STATE keys).2 = [Event.keyUp keys]) ∧
    (padPressed pad.wButtons STATE = s.click.lastIteration STATE →
      (mapKeyboard sl pad s STATE keys).1.pressedKeys = s.pressedKeys ∧
      (mapKeyboard sl pad s STATE keys).2 = []) := by
  simp only [mapKeyboard, setXbox_isDown_self, setXbox_isUp_self]
  cases hp : padPressed pad.wButtons STATE <;>
    cases hl : s.click.lastIteration STATE <;> simp [hp, hl]


theorem mapMouseClick_shape (sl : ℕ) (pad : Snapshot) (s : GopherState)
    (STATE keyDown keyUp : ℕ) :
    (mapMouseClick sl pad s STATE keyDown keyUp).1.click
        = setXboxClickState sl pad.wButtons s.click STATE ∧
    (mapMouseClick sl pad s STATE keyDown keyUp).1.disabled = s.disabled ∧
    (mapMouseClick sl pad s STATE keyDown keyUp).1.vibrationDisabled
        = s.vibrationDisabled ∧
    (mapMouseClick sl pad s STATE keyDown keyUp).1.hidden = s.hidden ∧
    (mapMouseClick sl pad s STATE keyDown keyUp).1.lTriggerPrevious
        = s.lTriggerPrevious ∧
    (mapMouseClick sl pad s STATE keyDown keyUp).1.rTriggerPrevious
        = s.rTriggerPrevious ∧
    (mapMouseClick sl pad s STATE keyDown keyUp).1.speed_idx = s.speed_idx ∧
    (mapMouseClick sl pad s STATE keyDown keyUp).1.speed = s.speed ∧
    (mapMouseClick sl pad s STATE keyDown keyUp).1.xRest = s.xRest ∧
    (mapMouseClick sl pad s STATE keyDown keyUp).1.yRest = s.yRest ∧
    (mapMouseClick sl pad s STATE keyDown keyUp).1.cursorX = s.cursorX ∧
    (mapMouseClick sl pad s STATE keyDown keyUp).1.cursorY = s.cursorY ∧
    (padPressed pad.wButtons STATE = true →
      s.click.lastIteration STATE = false →
      (mapMouseClick sl pad s STATE keyDown keyUp).1.pressedKeys
          = s.pressedKeys ++ vkForMouseDown keyDown ∧
      (mapMouseClick sl pad s STATE keyDown keyUp).2
          = [Event.mouse keyDown 0]) ∧
    (padPressed pad.wButtons STATE = false →
      s.click.lastIteration STATE = true →
      (mapMouseClick sl pad s STATE keyDown keyUp).1.pressedKeys
          = (vkForMouseUp keyUp).foldl erasePressedKey s.pressedKeys ∧
      (mapMouseClick sl pad s STATE keyDown keyUp).2
          = [Event.mouse keyUp 0]) ∧
    (padPressed pad.wButtons STATE = s.click.lastIteration STATE →
      (mapMouseClick sl pad s STATE keyDown keyUp).1.pressedKeys
          = s.pressedKeys ∧
      (mapMouseClick sl pad s STATE keyDown keyUp).2 = []) := by
  simp only [mapMouseClick, setXbox_isDown_self, setXbox_isUp_self]
  cases hp : padPressed pad.wButtons STATE <;>
    cases hl : s.click.lastIteration STATE <;> simp [hp, hl]


theorem handleTriggers_shape (TDZ : ℕ) (lKey rKey : List ℕ)
    (pad : Snapshot) (s : GopherState) :
    (handleTriggers TDZ lKey rKey pad s).1.click = s.click ∧
    (handleTriggers TDZ lKey rKey pad s).1.pressedKeys = s.pressedKeys ∧
    (handleTriggers TDZ lKey rKey pad s).1.disabled = s.disabled ∧
    (handleTriggers TDZ lKey rKey pad s).1.vibrationDisabled
        = s.vibrationDisabled ∧
    (handleTriggers TDZ lKey rKey pad s).1.hidden = s.hidden ∧
    (handleTriggers TDZ lKey rKey pad s).1.speed_idx = s.speed_idx ∧
    (handleTriggers TDZ lKey rKey pad s).1.speed = s.speed ∧
    (handleTriggers TDZ lKey rKey pad s).1.xRest = s.xRest ∧
    (handleTriggers TDZ lKey rKey pad s).1.yRest = s.yRest ∧
    (handleTriggers TDZ lKey rKey pad s).1.cursorX = s.cursorX ∧
    (handleTriggers TDZ lKey rKey pad s).1.cursorY = s.cursorY := by
  unfold handleTriggers
  dsimp only
  repeat' split
  all_goals simp


theorem handleVibrationButton_shape (cfg : Config) (pad : Snapshot)
    (s : GopherState) :
    (handleVibrationButton cfg pad s).pressedKeys = s.pressedKeys ∧
    (handleVibrationButton cfg pad s).disabled = s.disabled ∧
    (handleVibrationButton cfg pad s).hidden = s.hidden ∧
    (handleVibrationButton cfg pad s).lTriggerPrevious
        = s.lTriggerPrevious ∧
    (handleVibrationButton cfg pad s).rTriggerPrevious
        = s.rTriggerPrevious ∧
    (handleVibrationButton cfg pad s).speed_idx = s.speed_idx ∧
    (handleVibrationButton cfg pad s).speed = s.speed ∧
    (handleVibrationButton cfg pad s).xRest = s.xRest ∧
    (handleVibrationButton cfg pad s).yRest = s.yRest ∧
    (handleVibrationButton cfg pad s).cursorX = s.cursorX ∧
    (handleVibrationButton cfg pad s).cursorY = s.cursorY := by
  unfold handleVibrationButton
  dsimp only
  repeat' split
  all_goals simp


theorem handleMouseMovement_shape (cfg : Config) (pad : Snapshot)
    (s : GopherState) :
    (handleMouseMovement sqrtQ powQ cfg pad s).click = s.click ∧
    (handleMouseMovement sqrtQ powQ cfg pad s).pressedKeys
        = s.pressedKeys ∧
    (handleMouseMovement sqrtQ powQ cfg pad s).disabled = s.disabled ∧
    (handleMouseMovement sqrtQ powQ cfg pad s).vibrationDisabled
        = s.vibrationDisabled ∧
    (handleMouseMovement sqrtQ powQ cfg pad s).hidden = s.hidden ∧
    (handleMouseMovement sqrtQ powQ cfg pad s).lTriggerPrevious
        = s.lTriggerPrevious ∧
    (handleMouseMovement sqrtQ powQ cfg pad s).rTriggerPrevious
        = s.rTriggerPrevious ∧
    (handleMouseMovement sqrtQ powQ cfg pad s).speed_idx = s.speed_idx ∧
    (handleMouseMovement sqrtQ powQ cfg pad s).speed = s.speed := by
  unfold handleMouseMovement
  simp


theorem loopMouseButtons_disabled (cfg : Config) (pad : Snapshot)
    (s : GopherState) :
    (loopMouseButtons cfg pad s).1.disabled = s.disabled := by
  unfold loopMouseButtons
  dsimp only
  repeat' split
  all_goals
    simp [(mapMouseClick_shape _ _ _ _ _ _).2.1]


theorem loopHide_disabled (cfg : Config) (pad : Snapshot)
    (s : GopherState) :
    (loopHide cfg pad s).1.disabled = s.disabled := by
  unfold loopHide
  dsimp only
  repeat' split
  all_goals simp


theorem loopOsk_disabled (cfg : Config) (pad : Snapshot)
    (s : GopherState) :
    (loopOsk cfg pad s).1.disabled = s.disabled := by
  unfold loopOsk
  dsimp only
  repeat' split
  all_goals simp


theorem loopSpeedChange_disabled (cfg : Config) (pad : Snapshot)
    (s : GopherState) :
    (loopSpeedChange cfg pad s).1.disabled = s.disabled := by
  unfold loopSpeedChange
  dsimp only
  repeat' split
  all_goals simp


theorem mapKeyboardIf_disabled (sl : ℕ) (pad : Snapshot)
    (r : GopherState × List Event) (STATE : ℕ) (keys : List ℕ) :
    (mapKeyboardIf sl pad r STATE keys).1.disabled = r.1.disabled := by
  unfold mapKeyboardIf
  dsimp only
  split
  · rfl
  · exact (mapKeyboard_shape _ _ _ _ _).2.1


theorem loopKeyboardMaps_disabled (cfg : Config) (pad : Snapshot)
    (s : GopherState) :
    (loopKeyboardMaps cfg pad s).1.disabled = s.disabled := by
  unfold loopKeyboardMaps
  dsimp only
  simp only [mapKeyboardIf_disabled]


theorem handleTriggers_disabled (TDZ : ℕ) (lKey rKey : List ℕ)
    (pad : Snapshot) (s : GopherState) :
    (handleTriggers TDZ lKey rKey pad s).1.disabled = s.disabled :=
  (handleTriggers_shape TDZ lKey rKey pad s).2.2.1


theorem handleMouseMovement_disabled (cfg : Config) (pad : Snapshot)
    (s : GopherState) :
    (handleMouseMovement sqrtQ powQ cfg pad s).disabled = s.disabled :=
  (handleMouseMovement_shape sqrtQ powQ cfg pad s).2.2.1


theorem handleVibrationButton_disabled (cfg : Config) (pad : Snapshot)
    (s : GopherState) :
    (handleVibrationButton cfg pad s).disabled = s.disabled :=
  (handleVibrationButton_shape cfg pad s).2.1


/-- After `handleDisableButton`, the rest of the tick never changes the
disabled flag. -/
theorem gopherLoop_disabled_eq (cfg : Config) (pad : Snapshot)
    (s : GopherState) :
    (gopherLoop sqrtQ powQ cfg pad s).1.disabled
      = (handleDisableButton cfg pad s).1.disabled := by
  unfold gopherLoop
  dsimp only
  split
  · next h => exact h.symm ▸ h
  · simp only [loopKeyboardMaps_disabled, handleTriggers_disabled,
      loopSpeedChange_disabled, loopOsk_disabled, loopHide_disabled,
      loopMouseButtons_disabled, handleMouseMovement_disabled,
      handleVibrationButton_disabled]


/-- `handleDisableButton` without a press edge: only the disable button's
click-state tracking is refreshed, nothing is emitted. -/
theorem handleDisableButton_noEdge (cfg : Config) (pad : Snapshot)
    (s : GopherState)
    (h : ¬(padPressed pad.wButtons cfg.CONFIG_DISABLE = true ∧
        s.click.lastIteration cfg.CONFIG_DISABLE = false)) :
    handleDisableButton cfg pad s
      = ({ s with click := (setXboxClickState cfg.SLEEP_AMOUNT pad.wButtons
            s.click cfg.CONFIG_DISABLE) }, []) := by
  unfold handleDisableButton
  simp only [setXbox_isDown_self]
  cases hp : padPressed pad.wButtons cfg.CONFIG_DISABLE <;>
    cases hl : s.click.lastIteration cfg.CONFIG_DISABLE <;>
      simp_all


/-- `handleDisableButton` on the press edge while enabled: drains the
pressed keys and enters the disabled state. -/
theorem handleDisableButton_edge_enabled (cfg : Config) (pad : Snapshot)
    (s : GopherState) (hdis : s.disabled = false)
    (hp : padPressed pad.wButtons cfg.CONFIG_DISABLE = true)
    (hl : s.click.lastIteration cfg.CONFIG_DISABLE = false) :
    handleDisableButton cfg pad s
      = ({ s with
            click := (setXboxClickState cfg.SLEEP_AMOUNT pad.wButtons
              s.click cfg.CONFIG_DISABLE)
            disabled := true
            pressedKeys := [] },
         (classifyPressed s.pressedKeys).1 ++
           (if (classifyPressed s.pressedKeys).2.isEmpty then []
            else [Event.keyUp (classifyPressed s.pressedKeys).2]) ++
           pulseVibrate s.vibrationDisabled 400 10000 10000) := by
  unfold handleDisableButton
  simp only [setXbox_isDown_self, hp, hl, hdis]
  simp


/-- `handleDisableButton` on the press edge while disabled: re-enables
(and only pulses vibration). -/
theorem handleDisableButton_edge_disabled (cfg : Config) (pad : Snapshot)
    (s : GopherState) (hdis : s.disabled = true)
    (hp : padPressed pad.wButtons cfg.CONFIG_DISABLE = true)
    (hl : s.click.lastIteration cfg.CONFIG_DISABLE = false) :
    handleDisableButton cfg pad s
      = ({ s with
            click := (setXboxClickState cfg.SLEEP_AMOUNT pad.wButtons
              s.click cfg.CONFIG_DISABLE)
            disabled := false },
         pulseVibrate s.vibrationDisabled 400 65000 65000) := by
  unfold handleDisableButton
  simp only [setXbox_isDown_self, hp, hl, hdis]
  simp


/-- The drain loop splits the pressed-key list into its mouse-ups (one
per mouse-code occurrence, in order) and its keyboard codes (in order). -/
theorem classifyPressed_spec (l : List ℕ) :
    classifyPressed l
      = (l.filterMap mouseUpFor, l.filter (fun k => !isMouseCode k)) := by
  induction l with
  | nil => rfl
  | cons k rest ih =>
    by_cases h1 : k = VK_LBUTTON <;> by_cases h2 : k = VK_RBUTTON <;>
      by_cases h3 : k = VK_MBUTTON <;>
        simp_all [classifyPressed, mouseUpFor, isMouseCode,
          VK_LBUTTON, VK_RBUTTON, VK_MBUTTON]


/-! ### Claim theorems -/

/-- Claim C2: on the tick whose disable-button edge transitions the state
from Enabled to Disabled, every code held in the pressed-key list is
drained: each mouse-button code occurrence gets its corresponding mouse-up
emitted individually (in list order), the remaining keyboard codes get
exactly one key-up each, emitted together in a single batched key-up call
(omitted when there are none), and the pressed-key list is empty
afterwards. -/
theorem disable_transition_drains_pressed (cfg : Config) (pad : Snapshot)
    (s : GopherState) (hdis : s.disabled = false)
    (hp : padPressed pad.wButtons cfg.CONFIG_DISABLE = true)
    (hl : s.click.lastIteration cfg.CONFIG_DISABLE = false) :
    (handleDisableButton cfg pad s).1.disabled = true ∧
    (handleDisableButton cfg pad s).1.pressedKeys = [] ∧
    (handleDisableButton cfg pad s).2
      = s.pressedKeys.filterMap mouseUpFor ++
        (if (s.pressedKeys.filter (fun k => !isMouseCode k)).isEmpty then []
         else [Event.keyUp (s.pressedKeys.filter (fun k => !isMouseCode k))]) ++
        pulseVibrate s.vibrationDisabled 400 10000 10000 := by
  rw [handleDisableButton_edge_enabled cfg pad s hdis hp hl]
  simp [classifyPressed_spec]


/-- Witness for C2, the spec scenario: two keyboard keys (65, 66) and the
left mouse button held when the disable edge fires → one left-mouse-up,
one batched key-up covering both keys, empty pressed-key list. -/
theorem disable_transition_drains_pressed_witness :
    (handleDisableButton sampleConfig padDisable
        { initState with pressedKeys := [65, VK_LBUTTON, 66] }).1.disabled
        = true ∧
    (handleDisableButton sampleConfig padDisable
        { initState with pressedKeys := [65, VK_LBUTTON, 66] }).1.pressedKeys
        = [] ∧
    (handleDisableButton sampleConfig padDisable
        { initState with pressedKeys := [65, VK_LBUTTON, 66] }).2
      = [65, VK_LBUTTON, 66].filterMap mouseUpFor ++
        (if ([65, VK_LBUTTON, 66].filter (fun k => !isMouseCode k)).isEmpty
         then []
         else [Event.keyUp ([65, VK_LBUTTON, 66].filter
            (fun k => !isMouseCode k))]) ++
        pulseVibrate false 400 10000 10000 :=
  disable_transition_drains_pressed sampleConfig padDisable
    { initState with pressedKeys := [65, VK_LBUTTON, 66] }
    (by decide) (by decide) (by decide)


/-- Claim C3: on a tick executed while disabled (no re-enabling edge this
tick), the loop emits nothing and changes nothing besides the disable
button's own click tracking — no mouse movement, scrolling, mouse-click
mapping, keyboard mapping, trigger handling or speed cycling — and it
still evaluates the disable-button edge, so a press of the disable button
(down now, up on the previous tick) re-enables mapping. -/
theorem disabled_tick_skips_mapping (cfg : Config) (pad : Snapshot)
    (s : GopherState) (hd : s.disabled = true) :
    ((padPressed pad.wButtons cfg.CONFIG_DISABLE = true ∧
        s.click.lastIteration cfg.CONFIG_DISABLE = false) →
      (gopherLoop sqrtQ powQ cfg pad s).1.disabled = false) ∧
    (¬(padPressed pad.wButtons cfg.CONFIG_DISABLE = true ∧
        s.click.lastIteration cfg.CONFIG_DISABLE = false) →
      (gopherLoop sqrtQ powQ cfg pad s).2 = [] ∧
      (gopherLoop sqrtQ powQ cfg pad s).1.disabled = true ∧
      (gopherLoop sqrtQ powQ cfg pad s).1.pressedKeys = s.pressedKeys ∧
      (gopherLoop sqrtQ powQ cfg pad s).1.xRest = s.xRest ∧
      (gopherLoop sqrtQ powQ cfg pad s).1.yRest = s.yRest ∧
      (gopherLoop sqrtQ powQ cfg pad s).1.cursorX = s.cursorX ∧
      (gopherLoop sqrtQ powQ cfg pad s).1.cursorY = s.cursorY ∧
      (gopherLoop sqrtQ powQ cfg pad s).1.speed_idx = s.speed_idx ∧
      (gopherLoop sqrtQ powQ cfg pad s).1.speed = s.speed ∧
      (gopherLoop sqrtQ powQ cfg pad s).1.lTriggerPrevious
          = s.lTriggerPrevious ∧
      (gopherLoop sqrtQ powQ cfg pad s).1.rTriggerPrevious
          = s.rTriggerPrevious ∧
      (gopherLoop sqrtQ powQ cfg pad s).1.hidden = s.hidden ∧
      (gopherLoop sqrtQ powQ cfg pad s).1.vibrationDisabled
          = s.vibrationDisabled) := by
  constructor
  · rintro ⟨hp, hl⟩
    rw [gopherLoop_disabled_eq,
      handleDisableButton_edge_disabled cfg pad s hd hp hl]
  · intro h
    have hD := handleDisableButton_noEdge cfg pad s h
    unfold gopherLoop
    simp [hD, hd]


/-- Witness for C3: a disabled state on an idle snapshot — no events, all
mapping state untouched, still disabled. -/
theorem disabled_tick_skips_mapping_witness :
    ((gopherLoop (fun q => q) (fun a _ => a) sampleConfig padIdle
          { initState with disabled := true }).2 = [] ∧
      (gopherLoop (fun q => q) (fun a _ => a) sampleConfig padIdle
          { initState with disabled := true }).1.disabled = true ∧
      (gopherLoop (fun q => q) (fun a _ => a) sampleConfig padIdle
          { initState with disabled := true }).1.pressedKeys
          = ({ initState with disabled := true } : GopherState).pressedKeys ∧
      (gopherLoop (fun q => q) (fun a _ => a) sampleConfig padIdle
          { initState with disabled := true }).1.xRest
          = ({ initState with disabled := true } : GopherState).xRest ∧
      (gopherLoop (fun q => q) (fun a _ => a) sampleConfig padIdle
          { initState with disabled := true }).1.yRest
          = ({ initState with disabled := true } : GopherState).yRest ∧
      (gopherLoop (fun q => q) (fun a _ => a) sampleConfig padIdle
          { initState with disabled := true }).1.cursorX
          = ({ initState with disabled := true } : GopherState).cursorX ∧
      (gopherLoop (fun q => q) (fun a _ => a) sampleConfig padIdle
          { initState with disabled := true }).1.cursorY
          = ({ initState with disabled := true } : GopherState).cursorY ∧
      (gopherLoop (fun q => q) (fun a _ => a) sampleConfig padIdle
          { initState with disabled := true }).1.speed_idx
          = ({ initState with disabled := true } : GopherState).speed_idx ∧
      (gopherLoop (fun q => q) (fun a _ => a) sampleConfig padIdle
          { initState with disabled := true }).1.speed
          = ({ initState with disabled := true } : GopherState).speed ∧
      (gopherLoop (fun q => q) (fun a _ => a) sampleConfig padIdle
          { initState with disabled := true }).1.lTriggerPrevious
          = ({ initState with disabled := true } : GopherState).lTriggerPrevious ∧
      (gopherLoop (fun q => q) (fun a _ => a) sampleConfig padIdle
          { initState with disabled := true }).1.rTriggerPrevious
          = ({ initState with disabled := true } : GopherState).rTriggerPrevious ∧
      (gopherLoop (fun q => q) (fun a _ => a) sampleConfig padIdle
          { initState with disabled := true }).1.hidden
          = ({ initState with disabled := true } : GopherState).hidden ∧
      (gopherLoop (fun q => q) (fun a _ => a) sampleConfig padIdle
          { initState with disabled := true }).1.vibrationDisabled
          = ({ initState with disabled := true } : GopherState).vibrationDisabled) :=
  (disabled_tick_skips_mapping (fun q => q) (fun a _ => a) sampleConfig padIdle
    { initState with disabled := true } (by decide)).2 (by decide)


/-- Claim C4: the per-tick edge flags follow Up → JustDown → Down →
JustUp.  With the button previously up (including a first-ever
observation: an unseen button reads as up), observing it down yields
`isDown = true, isUp = false` for that tick; observing it down again on
the next tick yields `isDown = false`; observing it up on the tick after
it was down yields `isUp = true`. -/
theorem button_edge_cycle (sl w1 w2 w3 : ℕ) (s : ClickState) (b : ℕ)
    (hup : s.lastIteration b = false)
    (h1 : padPressed w1 b = true) (h2 : padPressed w2 b = true)
    (h3 : padPressed w3 b = false) :
    (setXboxClickState sl w1 s b).isDown b = true ∧
    (setXboxClickState sl w1 s b).isUp b = false ∧
    (setXboxClickState sl w2 (setXboxClickState sl w1 s b) b).isDown b
        = false ∧
    (setXboxClickState sl w3 (setXboxClickState sl w1 s b) b).isUp b
        = true := by
  refine ⟨?_, ?_, ?_, ?_⟩ <;>
    simp [setXbox_isDown_self, setXbox_isUp_self, setXbox_lastIteration_self,
      h1, h2, h3, hup]


/-- Witness for C4: a fresh (unseen) button pressed, held, released. -/
theorem button_edge_cycle_witness :
    (setXboxClickState 50 16 initClick 16).isDown 16 = true ∧
    (setXboxClickState 50 16 initClick 16).isUp 16 = false ∧
    (setXboxClickState 50 16 (setXboxClickState 50 16 initClick 16) 16).isDown
        16 = false ∧
    (setXboxClickState 50 0 (setXboxClickState 50 16 initClick 16) 16).isUp
        16 = true :=
  button_edge_cycle 50 16 16 0 initClick 16 (by decide) (by decide)
    (by decide) (by decide)


/-- While a button is held continuously from a press edge, its tick count
and long-press flag track exactly: after `n ≥ 1` down observations the
held length is `n` and `isDownLong` is `n * sleepAmount > 200`. -/
theorem observeTicks_hold (sl w b : ℕ) (hw : padPressed w b = true)
    (s : ClickState) (hup : s.lastIteration b = false) :
    ∀ n, 1 ≤ n →
      (observeTicks sl w b s n).lastIteration b = true ∧
      (observeTicks sl w b s n).downLength b = n ∧
      (observeTicks sl w b s n).isDownLong b = decide (n * sl > 200)
  | 1, _ => by
    simp [observeTicks, setXbox_lastIteration_self, setXbox_downLength_self,
      setXbox_isDownLong_self, hw, hup]
  | n + 2, _ => by
    obtain ⟨ih1, ih2, ih3⟩ := observeTicks_hold sl w b hw s hup (n + 1)
      (by omega)
    have hstep : observeTicks sl w b s (n + 2)
        = setXboxClickState sl w (observeTicks sl w b s (n + 1)) b := rfl
    refine ⟨?_, ?_, ?_⟩
    · rw [hstep, setXbox_lastIteration_self]
      exact hw
    · rw [hstep, setXbox_downLength_self]
      simp [hw, ih1, ih2]
    · rw [hstep, setXbox_isDownLong_self, hw, ih1, ih2, ih3]
      simp only [if_pos rfl, if_pos]
      by_cases hgt : (n + 1 + 1) * sl > 200
      · rw [if_pos hgt, eq_comm, decide_eq_true_eq]
        exact hgt
      · rw [if_neg hgt]
        have h1 : ¬((n + 1) * sl > 200) := by
          intro hc
          exact hgt (lt_of_lt_of_le hc (Nat.mul_le_mul_right sl (by omega)))
        simp [h1, hgt]


/-- Claim C5: for a button held continuously from a press edge, the
long-press flag is true exactly when `ticksHeld * tickIntervalMs` is
strictly greater than the 200 ms threshold; a hold of exactly 200 ms is
not yet long, and one release observation clears the flag. -/
theorem heldLong_strict_threshold (sl w wup b : ℕ) (s : ClickState)
    (hw : padPressed w b = true) (hwup : padPressed wup b = false)
    (hup : s.lastIteration b = false) (n : ℕ) (hn : 1 ≤ n) :
    ((observeTicks sl w b s n).isDownLong b = decide (n * sl > 200)) ∧
    (n * sl = 200 → (observeTicks sl w b s n).isDownLong b = false) ∧
    (setXboxClickState sl wup (observeTicks sl w b s n) b).isDownLong b
        = false := by
  obtain ⟨h1, h2, h3⟩ := observeTicks_hold sl w b hw s hup n hn
  refine ⟨h3, ?_, ?_⟩
  · intro he
    simp [h3, he]
  · simp [setXbox_isDownLong_self, hwup, h1]


/-- Witness for C5: `sleepAmount = 100` ms.  Two held ticks are exactly
200 ms (not long); the release observation clears the flag. -/
theorem heldLong_strict_threshold_witness :
    ((observeTicks 100 16 16 initClick 2).isDownLong 16
        = decide (2 * 100 > 200)) ∧
    (2 * 100 = 200 → (observeTicks 100 16 16 initClick 2).isDownLong 16
        = false) ∧
    (setXboxClickState 100 0 (observeTicks 100 16 16 initClick 2)
        16).isDownLong 16 = false :=
  heldLong_strict_threshold 100 16 0 16 initClick (by decide) (by decide)
    (by decide) 2 (by decide)


/-- Claim C6: a cursor-stick input whose squared magnitude is at or below
the squared cursor dead zone produces exactly zero displacement on both
axes; a nonzero displacement can only arise when the squared magnitude
strictly exceeds the squared dead zone. -/
theorem deadzone_zero_displacement (cfg : Config) (pad : Snapshot)
    (s : GopherState) :
    ((if cfg.SWAP_THUMBSTICKS = 0 then pad.sThumbLX else pad.sThumbRX) *
        (if cfg.SWAP_THUMBSTICKS = 0 then pad.sThumbLX else pad.sThumbRX) +
      (if cfg.SWAP_THUMBSTICKS = 0 then pad.sThumbLY else pad.sThumbRY) *
        (if cfg.SWAP_THUMBSTICKS = 0 then pad.sThumbLY else pad.sThumbRY)
        ≤ cfg.DEAD_ZONE * cfg.DEAD_ZONE →
      cursorDelta sqrtQ powQ cfg pad s = (0, 0)) ∧
    (cursorDelta sqrtQ powQ cfg pad s ≠ (0, 0) →
      (if cfg.SWAP_THUMBSTICKS = 0 then pad.sThumbLX else pad.sThumbRX) *
        (if cfg.SWAP_THUMBSTICKS = 0 then pad.sThumbLX else pad.sThumbRX) +
      (if cfg.SWAP_THUMBSTICKS = 0 then pad.sThumbLY else pad.sThumbRY) *
        (if cfg.SWAP_THUMBSTICKS = 0 then pad.sThumbLY else pad.sThumbRY)
        > cfg.DEAD_ZONE * cfg.DEAD_ZONE) := by
  constructor
  · intro h
    unfold cursorDelta
    rw [if_neg (not_lt.mpr h)]
  · intro h
    by_contra hc
    push_neg at hc
    apply h
    unfold cursorDelta
    rw [if_neg (not_lt.mpr hc)]


/-- Witness for C6, the spec scenario: stick `(3000, 4000)` (magnitude
5000) against the default dead zone 6000 moves the cursor by nothing. -/
theorem deadzone_zero_displacement_witness :
    cursorDelta (fun q => q) (fun a _ => a) sampleConfig padStick3000
      initState = (0, 0) :=
  (deadzone_zero_displacement (fun q => q) (fun a _ => a) sampleConfig
    padStick3000 initState).1 (by decide)


/-- One speed-change press from a valid index stays a valid index and is
exactly the successor modulo the table length. -/
theorem speedAdvance_eq_mod (speeds : List ℚ) (i : ℕ)
    (hi : i < speeds.length) :
    speedAdvance speeds i = (i + 1) % speeds.length ∧
    speedAdvance speeds i < speeds.length := by
  unfold speedAdvance
  by_cases h : i + 1 ≥ speeds.length
  · have : i + 1 = speeds.length := by omega
    rw [if_pos h, this, Nat.mod_self]
    exact ⟨rfl, by omega⟩
  · rw [if_neg h, Nat.mod_eq_of_lt (by omega)]
    exact ⟨rfl, by omega⟩


/-- Iterating the speed advance adds modulo the table length. -/
theorem speedAdvance_iterate (speeds : List ℚ) :
    ∀ (k i : ℕ), i < speeds.length →
      (speedAdvance speeds)^[k] i = (i + k) % speeds.length
  | 0, i, hi => by
    simp [Nat.mod_eq_of_lt hi]
  | k + 1, i, hi => by
    rcases speedAdvance_eq_mod speeds i hi with ⟨h1, h2⟩
    rw [Function.iterate_succ_apply, h1,
      speedAdvance_iterate speeds k ((i + 1) % speeds.length) (h1 ▸ h2),
      Nat.mod_add_mod]
    congr 1
    omega


/-- Claim C7: speed cycling is circular.  For a table of length `n ≥ 1`
and current index `i < n`, one press advances the index to `(i + 1) % n`,
and `n` consecutive presses return the index — and hence the active
speed — to its original value. -/
theorem speed_cycling_circular (speeds : List ℚ) (i : ℕ)
    (hn : 1 ≤ speeds.length) (hi : i < speeds.length) :
    speedAdvance speeds i = (i + 1) % speeds.length ∧
    (speedAdvance speeds)^[speeds.length] i = i ∧
    speeds.getD ((speedAdvance speeds)^[speeds.length] i) 0
        = speeds.getD i 0 := by
  have hrt : (speedAdvance speeds)^[speeds.length] i = i := by
    rw [speedAdvance_iterate speeds speeds.length i hi, Nat.add_mod_right,
      Nat.mod_eq_of_lt hi]
  exact ⟨(speedAdvance_eq_mod speeds i hi).1, hrt, by rw [hrt]⟩


/-- Witness for C7: the four-entry default speed table, starting at
index 2. -/
theorem speed_cycling_circular_witness :
    speedAdvance sampleConfig.speeds 2
        = (2 + 1) % sampleConfig.speeds.length ∧
    (speedAdvance sampleConfig.speeds)^[sampleConfig.speeds.length] 2 = 2 ∧
    sampleConfig.speeds.getD
        ((speedAdvance sampleConfig.speeds)^[sampleConfig.speeds.length] 2) 0
        = sampleConfig.speeds.getD 2 0 :=
  speed_cycling_circular sampleConfig.speeds 2 (by decide) (by decide)


/-- Claim C9: `getDelta` replaces an axis value above `32767` or below
`-32768` by `0` and returns every value inside the signed 16-bit range
unchanged (so no in-range reading is ever altered). -/
theorem getDelta_sanitizes (t : ℤ) :
    ((32767 < t ∨ t < -32768) → getDelta t = 0) ∧
    (-32768 ≤ t → t ≤ 32767 → getDelta t = t) := by
  unfold getDelta
  dsimp only
  constructor
  · rintro (h | h) <;> (repeat' split) <;> omega
  · intro h1 h2
    (repeat' split) <;> omega


/-- Witness for C9: a glitch spike of `40000` is zeroed, a normal reading
of `5` passes through. -/
theorem getDelta_sanitizes_witness : getDelta 40000 = 0 ∧ getDelta 5 = 5 :=
  ⟨(getDelta_sanitizes 40000).1 (Or.inl (by decide)),
   (getDelta_sanitizes 5).2 (by decide) (by decide)⟩


/-- C truncation keeps the remainder strictly inside `(-1, 1)`. -/
theorem ctrunc_sub_bounds (q : ℚ) :
    -1 < q - (ctrunc q : ℚ) ∧ q - (ctrunc q : ℚ) < 1 := by
  unfold ctrunc
  split
  · push_cast
    constructor
    · have := Int.ceil_lt_add_one q
      linarith
    · have := Int.le_ceil q
      linarith
  · push_cast
    constructor
    · have := Int.floor_le q
      linarith
    · have := Int.lt_floor_add_one q
      linarith


/-- Claim C10: after every cursor-movement tick, each axis accumulator
equals exactly the fractional part (target minus its truncation toward
zero, hence strictly between `-1` and `1`) of the target coordinate built
from the previous coordinate, the previous remainder and this tick's
displacement, and the truncated integer part is what is applied to the
cursor. -/
theorem motion_accumulator_fractional (cfg : Config) (pad : Snapshot)
    (s : GopherState) :
    (handleMouseMovement sqrtQ powQ cfg pad s).xRest
        = ((s.cursorX : ℚ) + s.xRest + (cursorDelta sqrtQ powQ cfg pad s).1)
          - ((ctrunc ((s.cursorX : ℚ) + s.xRest
              + (cursorDelta sqrtQ powQ cfg pad s).1) : ℤ) : ℚ) ∧
    -1 < (handleMouseMovement sqrtQ powQ cfg pad s).xRest ∧
    (handleMouseMovement sqrtQ powQ cfg pad s).xRest < 1 ∧
    (handleMouseMovement sqrtQ powQ cfg pad s).cursorX
        = ctrunc ((s.cursorX : ℚ) + s.xRest
            + (cursorDelta sqrtQ powQ cfg pad s).1) ∧
    (handleMouseMovement sqrtQ powQ cfg pad s).yRest
        = ((s.cursorY : ℚ) + s.yRest - (cursorDelta sqrtQ powQ cfg pad s).2)
          - ((ctrunc ((s.cursorY : ℚ) + s.yRest
              - (cursorDelta sqrtQ powQ cfg pad s).2) : ℤ) : ℚ) ∧
    -1 < (handleMouseMovement sqrtQ powQ cfg pad s).yRest ∧
    (handleMouseMovement sqrtQ powQ cfg pad s).yRest < 1 ∧
    (handleMouseMovement sqrtQ powQ cfg pad s).cursorY
        = ctrunc ((s.cursorY : ℚ) + s.yRest
            - (cursorDelta sqrtQ powQ cfg pad s).2) := by
  refine ⟨rfl, ?_, ?_, rfl, rfl, ?_, ?_, rfl⟩
  · exact (ctrunc_sub_bounds _).1
  · exact (ctrunc_sub_bounds _).2
  · exact (ctrunc_sub_bounds _).1
  · exact (ctrunc_sub_bounds _).2


/-- Claim C8: when the combined scroll-stick magnitude exceeds the scroll
dead zone, `handleScrolling` emits one wheel event per axis; and for any
axis value whose absolute value is below the scroll dead zone (with
`sqrt` exact on its square, as float `sqrt` is), the per-axis multiplier
`getMult(t², SCROLL_DEAD_ZONE)` is negative, so the emitted scroll
amount has the sign opposite to the axis value. -/
theorem scroll_axis_reversal (cfg : Config) (pad : Snapshot)
    (hdzM : (cfg.SCROLL_DEAD_ZONE : ℚ) < MAXSHORT)
    (hss : 0 < cfg.SCROLL_SPEED) (hfps : 0 < cfg.FPS)
    (hmag : sqrtQ (scrollTX cfg pad * scrollTX cfg pad
        + scrollTY cfg pad * scrollTY cfg pad)
      > (cfg.SCROLL_DEAD_ZONE : ℚ)) :
    handleScrolling sqrtQ powQ cfg pad
      = [Event.mouse MOUSEEVENTF_HWHEEL
          (scrollTX cfg pad * getMult sqrtQ powQ cfg.FPS
            (scrollTX cfg pad * scrollTX cfg pad)
            (cfg.SCROLL_DEAD_ZONE : ℚ) 0 * cfg.SCROLL_SPEED),
         Event.mouse MOUSEEVENTF_WHEEL
          (scrollTY cfg pad * getMult sqrtQ powQ cfg.FPS
            (scrollTY cfg pad * scrollTY cfg pad)
            (cfg.SCROLL_DEAD_ZONE : ℚ) 0 * cfg.SCROLL_SPEED)] ∧
    (∀ t : ℚ, sqrtQ (t * t) = |t| → |t| < (cfg.SCROLL_DEAD_ZONE : ℚ) →
      getMult sqrtQ powQ cfg.FPS (t * t) (cfg.SCROLL_DEAD_ZONE : ℚ) 0 < 0 ∧
      (t ≠ 0 →
        (t * getMult sqrtQ powQ cfg.FPS (t * t)
          (cfg.SCROLL_DEAD_ZONE : ℚ) 0 * cfg.SCROLL_SPEED) * t < 0)) := by
  constructor
  · unfold handleScrolling
    dsimp only
    rw [if_pos hmag]
  · intro t hsq hlt
    have hden : (0 : ℚ) < MAXSHORT - (cfg.SCROLL_DEAD_ZONE : ℚ) := by
      linarith
    have hnum : sqrtQ (t * t) - (cfg.SCROLL_DEAD_ZONE : ℚ) < 0 := by
      rw [hsq]
      have := abs_nonneg t
      linarith
    have hm : getMult sqrtQ powQ cfg.FPS (t * t)
        (cfg.SCROLL_DEAD_ZONE : ℚ) 0 < 0 := by
      unfold getMult
      dsimp only
      rw [if_neg (by norm_num)]
      exact div_neg_of_neg_of_pos (div_neg_of_neg_of_pos hnum hden) hfps
    refine ⟨hm, fun ht => ?_⟩
    have htt : (0 : ℚ) < t * t := mul_self_pos.mpr ht
    have hprod : (t * getMult sqrtQ powQ cfg.FPS (t * t)
          (cfg.SCROLL_DEAD_ZONE : ℚ) 0 * cfg.SCROLL_SPEED) * t
        = (t * t) * (getMult sqrtQ powQ cfg.FPS (t * t)
            (cfg.SCROLL_DEAD_ZONE : ℚ) 0 * cfg.SCROLL_SPEED) := by
      ring
    rw [hprod]
    exact mul_neg_of_pos_of_neg htt (mul_neg_of_neg_of_pos hm hss)


/-- Witness for C8: scroll stick at `(100, 30000)` with the default
scroll dead zone 5000 — the x axis (|100| < 5000) gets a negative
multiplier and an emitted amount of sign opposite to the axis. -/
theorem scroll_axis_reversal_witness :
    getMult (fun q => if q = (100 : ℚ) * 100 then 100 else 30001)
        (fun a _ => a) sampleConfig.FPS ((100 : ℚ) * 100)
        (sampleConfig.SCROLL_DEAD_ZONE : ℚ) 0 < 0 ∧
    ((100 : ℚ) * getMult (fun q => if q = (100 : ℚ) * 100 then 100 else 30001)
        (fun a _ => a) sampleConfig.FPS ((100 : ℚ) * 100)
        (sampleConfig.SCROLL_DEAD_ZONE : ℚ) 0 * sampleConfig.SCROLL_SPEED)
        * 100 < 0 := by
  have h := (scroll_axis_reversal
    (fun q => if q = (100 : ℚ) * 100 then 100 else 30001) (fun a _ => a)
    sampleConfig padScroll
    (by norm_num [sampleConfig, MAXSHORT])
    (by norm_num [sampleConfig])
    (by norm_num [sampleConfig])
    (by norm_num [scrollTX, scrollTY, sampleConfig, padScroll, padIdle,
      getDelta])).2 100
    (by norm_num) (by norm_num [sampleConfig])
  exact ⟨h.1, h.2 (by norm_num)⟩


/-! ### The pressed-key invariant over free dispatch sequences -/

theorem trackedDown_append (t1 t2 : List (Bool × Event)) (c : ℕ) :
    trackedDown (t1 ++ t2) c = trackedDown t1 c + trackedDown t2 c := by
  simp [trackedDown]


theorem trackedUp_append (t1 t2 : List (Bool × Event)) (c : ℕ) :
    trackedUp (t1 ++ t2) c = trackedUp t1 c + trackedUp t2 c := by
  simp [trackedUp]


theorem trackedDown_trigger (evs : List Event) (c : ℕ) :
    trackedDown (evs.map (fun e => (true, e))) c = 0 := by
  simp [trackedDown, List.map_map, Function.comp_def]


theorem trackedUp_trigger (evs : List Event) (c : ℕ) :
    trackedUp (evs.map (fun e => (true, e))) c = 0 := by
  simp [trackedUp, List.map_map, Function.comp_def]


theorem trackedDown_button (evs : List Event) (c : ℕ) :
    trackedDown (evs.map (fun e => (false, e))) c
      = (evs.map (evDown c)).sum := by
  simp [trackedDown, List.map_map, Function.comp_def]


theorem trackedUp_button (evs : List Event) (c : ℕ) :
    trackedUp (evs.map (fun e => (false, e))) c
      = (evs.map (evUp c)).sum := by
  simp [trackedUp, List.map_map, Function.comp_def]


/-- Erasing a sub-multiset of codes front-to-back removes exactly that
multiset. -/
theorem coe_foldl_erase :
    ∀ (keys l : List ℕ), (keys : Multiset ℕ) ≤ (l : Multiset ℕ) →
      ((keys.foldl erasePressedKey l : List ℕ) : Multiset ℕ)
        = (l : Multiset ℕ) - (keys : Multiset ℕ)
  | [], l, _ => by simp
  | k :: ks, l, h => by
    have hcons : ((k :: ks : List ℕ) : Multiset ℕ) = {k} + (ks : Multiset ℕ) := by
      rw [Multiset.singleton_add, Multiset.cons_coe]
    have hks : (ks : Multiset ℕ) ≤ (l : Multiset ℕ) - {k} :=
      le_tsub_of_add_le_left (by rw [← hcons]; exact h)
    have herase : ((l.erase k : List ℕ) : Multiset ℕ)
        = (l : Multiset ℕ) - {k} := by
      rw [← Multiset.coe_erase, Multiset.sub_singleton]
    have hfold : (k :: ks).foldl erasePressedKey l
        = ks.foldl erasePressedKey (l.erase k) := rfl
    rw [hfold, coe_foldl_erase ks (l.erase k) (by rw [herase]; exact hks),
      herase, hcons, tsub_tsub]


/-- Flipping one held-flag from false to true adds that button's weight to
the held sum. -/
theorem sum_if_flip_true {D : Finset ℕ} {b : ℕ} (hb : b ∈ D)
    (f g : ℕ → Bool) (w : ℕ → Multiset ℕ)
    (hfb : f b = false) (hgb : g b = true)
    (hoff : ∀ a, a ≠ b → g a = f a) :
    (∑ a ∈ D, if g a then w a else 0)
      = (∑ a ∈ D, if f a then w a else 0) + w b := by
  rw [← Finset.add_sum_erase D (fun a => if g a then w a else 0) hb,
    ← Finset.add_sum_erase D (fun a => if f a then w a else 0) hb,
    hgb, hfb]
  have hsame : (∑ a ∈ D.erase b, if g a then w a else 0)
      = ∑ a ∈ D.erase b, if f a then w a else 0 :=
    Finset.sum_congr rfl fun a ha => by
      rw [hoff a (Finset.mem_erase.1 ha).1]
  rw [hsame]
  simp [add_comm]


/-- An unchanged held-flag function leaves the held sum unchanged. -/
theorem sum_if_congr {D : Finset ℕ} (f g : ℕ → Bool) (w : ℕ → Multiset ℕ)
    (h : ∀ a ∈ D, g a = f a) :
    (∑ a ∈ D, if g a then w a else 0)
      = ∑ a ∈ D, if f a then w a else 0 :=
  Finset.sum_congr rfl fun a ha => by rw [h a ha]


theorem mapKeyboard_summary (sl : ℕ) (pad : Snapshot) (s : GopherState)
    (STATE : ℕ) (keys : List ℕ) :
    MapSummary sl pad s STATE keys (Event.keyDown keys) (Event.keyUp keys)
      (mapKeyboard sl pad s STATE keys) := by
  obtain h := mapKeyboard_shape sl pad s STATE keys
  exact ⟨h.1, h.2.2.2.2.2.2.2.2.2.2.2.2.1, h.2.2.2.2.2.2.2.2.2.2.2.2.2.1,
    h.2.2.2.2.2.2.2.2.2.2.2.2.2.2⟩


theorem mapMouseClick_summary_left (sl : ℕ) (pad : Snapshot)
    (s : GopherState) (STATE : ℕ) :
    MapSummary sl pad s STATE [VK_LBUTTON]
      (Event.mouse MOUSEEVENTF_LEFTDOWN 0) (Event.mouse MOUSEEVENTF_LEFTUP 0)
      (mapMouseClick sl pad s STATE MOUSEEVENTF_LEFTDOWN
        MOUSEEVENTF_LEFTUP) := by
  obtain h := mapMouseClick_shape sl pad s STATE MOUSEEVENTF_LEFTDOWN
    MOUSEEVENTF_LEFTUP
  refine ⟨h.1, ?_, ?_, h.2.2.2.2.2.2.2.2.2.2.2.2.2.2⟩
  · intro hp hl
    have := h.2.2.2.2.2.2.2.2.2.2.2.2.1 hp hl
    simpa [vkForMouseDown] using this
  · intro hp hl
    have := h.2.2.2.2.2.2.2.2.2.2.2.2.2.1 hp hl
    simpa [vkForMouseUp] using this


theorem mapMouseClick_summary_right (sl : ℕ) (pad : Snapshot)
    (s : GopherState) (STATE : ℕ) :
    MapSummary sl pad s STATE [VK_RBUTTON]
      (Event.mouse MOUSEEVENTF_RIGHTDOWN 0)
      (Event.mouse MOUSEEVENTF_RIGHTUP 0)
      (mapMouseClick sl pad s STATE MOUSEEVENTF_RIGHTDOWN
        MOUSEEVENTF_RIGHTUP) := by
  obtain h := mapMouseClick_shape sl pad s STATE MOUSEEVENTF_RIGHTDOWN
    MOUSEEVENTF_RIGHTUP
  refine ⟨h.1, ?_, ?_, h.2.2.2.2.2.2.2.2.2.2.2.2.2.2⟩
  · intro hp hl
    have := h.2.2.2.2.2.2.2.2.2.2.2.2.1 hp hl
    simpa [vkForMouseDown] using this
  · intro hp hl
    have := h.2.2.2.2.2.2.2.2.2.2.2.2.2.1 hp hl
    simpa [vkForMouseUp] using this


theorem mapMouseClick_summary_middle (sl : ℕ) (pad : Snapshot)
    (s : GopherState) (STATE : ℕ) :
    MapSummary sl pad s STATE [VK_MBUTTON]
      (Event.mouse MOUSEEVENTF_MIDDLEDOWN 0)
      (Event.mouse MOUSEEVENTF_MIDDLEUP 0)
      (mapMouseClick sl pad s STATE MOUSEEVENTF_MIDDLEDOWN
        MOUSEEVENTF_MIDDLEUP) := by
  obtain h := mapMouseClick_shape sl pad s STATE MOUSEEVENTF_MIDDLEDOWN
    MOUSEEVENTF_MIDDLEUP
  refine ⟨h.1, ?_, ?_, h.2.2.2.2.2.2.2.2.2.2.2.2.2.2⟩
  · intro hp hl
    have := h.2.2.2.2.2.2.2.2.2.2.2.2.1 hp hl
    simpa [vkForMouseDown] using this
  · intro hp hl
    have := h.2.2.2.2.2.2.2.2.2.2.2.2.2.1 hp hl
    simpa [vkForMouseUp] using this


/-- Any dispatch with the press/release behaviour of `MapSummary`
preserves the held-sum invariant, and changes the pressed-key counts by
exactly the down/up events it emits. -/
theorem summary_preserves (sl : ℕ) (pad : Snapshot) (s : GopherState)
    (STATE : ℕ) (keysEff : List ℕ) (dEv uEv : Event)
    (r : GopherState × List Event)
    (hs : MapSummary sl pad s STATE keysEff dEv uEv r)
    (bmap : ℕ → ButtonMapping) (D : Finset ℕ) (hSTATE : STATE ∈ D)
    (hweight : weightOf (bmap STATE) = (keysEff : Multiset ℕ))
    (hdd : ∀ c, evDown c dEv = keysEff.count c)
    (hdu : ∀ c, evUp c dEv = 0)
    (hud : ∀ c, evDown c uEv = 0)
    (huu : ∀ c, evUp c uEv = keysEff.count c)
    (hI : InvD bmap D s) :
    InvD bmap D r.1 ∧
    (∀ c, r.1.pressedKeys.count c
        + trackedUp (r.2.map (fun e => (false, e))) c
      = s.pressedKeys.count c
        + trackedDown (r.2.map (fun e => (false, e))) c) := by
  obtain ⟨hout, hsum⟩ := hI
  obtain ⟨hclick, hpress, hrel, hnone⟩ := hs
  have hlast_self : r.1.click.lastIteration STATE
      = padPressed pad.wButtons STATE := by
    rw [hclick, setXbox_lastIteration_self]
  have hlast_other : ∀ a, a ≠ STATE →
      r.1.click.lastIteration a = s.click.lastIteration a := by
    intro a ha
    rw [hclick, setXbox_lastIteration_other sl pad.wButtons s.click ha]
  have houtNew : ∀ b, b ∉ D → r.1.click.lastIteration b = false := by
    intro b hb
    by_cases hbS : b = STATE
    · exact absurd (hbS ▸ hSTATE) hb
    · rw [hlast_other b hbS]
      exact hout b hb
  cases hp : padPressed pad.wButtons STATE <;>
    cases hl : s.click.lastIteration STATE
  · -- up, previously up: no edge
    obtain ⟨hpk, hev⟩ := hnone (by rw [hp, hl])
    refine ⟨⟨houtNew, ?_⟩, ?_⟩
    · rw [hpk, sum_if_congr s.click.lastIteration r.1.click.lastIteration
        (fun a => weightOf (bmap a)) ?_]
      · exact hsum
      · intro a _
        by_cases hbS : a = STATE
        · subst hbS
          rw [hlast_self]
          exact hp.trans hl.symm
        · exact hlast_other a hbS
    · intro c
      simp [hpk, hev, trackedUp, trackedDown]
  · -- up, previously down: release edge
    obtain ⟨hpk, hev⟩ := hrel hp hl
    have hle : (keysEff : Multiset ℕ) ≤ (s.pressedKeys : Multiset ℕ) := by
      rw [hsum, ← hweight]
      have hz : ∀ i ∈ D, (0 : Multiset ℕ)
          ≤ (if s.click.lastIteration i then weightOf (bmap i) else 0) :=
        fun i _ => zero_le _
      have hss := Finset.single_le_sum hz hSTATE
      simpa [hl] using hss
    have hcoe : (r.1.pressedKeys : Multiset ℕ)
        = (s.pressedKeys : Multiset ℕ) - (keysEff : Multiset ℕ) := by
      rw [hpk]
      exact coe_foldl_erase keysEff s.pressedKeys hle
    refine ⟨⟨houtNew, ?_⟩, ?_⟩
    · have hflip := sum_if_flip_true hSTATE r.1.click.lastIteration
        s.click.lastIteration (fun a => weightOf (bmap a))
        (by rw [hlast_self, hp]) hl (fun a ha => (hlast_other a ha).symm)
      rw [hcoe, hsum, hflip]
      simp only [hweight]
      exact add_tsub_cancel_right _ _
    · intro c
      have hcount : r.1.pressedKeys.count c
          = s.pressedKeys.count c - keysEff.count c := by
        have h2 := congrArg (Multiset.count c) hcoe
        rwa [Multiset.count_sub, Multiset.coe_count, Multiset.coe_count,
          Multiset.coe_count] at h2
      have hlec : keysEff.count c ≤ s.pressedKeys.count c := by
        have h3 := Multiset.count_le_of_le c hle
        rwa [Multiset.coe_count, Multiset.coe_count] at h3
      rw [hcount, hev]
      simp [trackedUp, trackedDown, huu c, hud c]
      omega
  · -- down, previously up: press edge
    obtain ⟨hpk, hev⟩ := hpress hp hl
    refine ⟨⟨houtNew, ?_⟩, ?_⟩
    · rw [hpk, ← Multiset.coe_add,
        sum_if_flip_true hSTATE s.click.lastIteration
          r.1.click.lastIteration (fun a => weightOf (bmap a)) hl
          (by rw [hlast_self, hp]) hlast_other,
        ← hsum]
      simp only [hweight]
    · intro c
      rw [hpk, hev]
      simp [trackedUp, trackedDown, hdd c, hdu c, List.count_append]
  · -- down, previously down: no edge
    obtain ⟨hpk, hev⟩ := hnone (by rw [hp, hl])
    refine ⟨⟨houtNew, ?_⟩, ?_⟩
    · rw [hpk, sum_if_congr s.click.lastIteration r.1.click.lastIteration
        (fun a => weightOf (bmap a)) ?_]
      · exact hsum
      · intro a _
        by_cases hbS : a = STATE
        · subst hbS
          rw [hlast_self]
          exact hp.trans hl.symm
        · exact hlast_other a hbS
    · intro c
      simp [hpk, hev, trackedUp, trackedDown]


theorem evDown_mouse_left (c : ℕ) :
    evDown c (Event.mouse MOUSEEVENTF_LEFTDOWN 0) = [VK_LBUTTON].count c := by
  by_cases h : c = 1
  · subst h
    decide
  · have h2 : ¬(1 = c) := fun hc => h hc.symm
    simp [evDown, VK_LBUTTON, VK_RBUTTON, VK_MBUTTON, MOUSEEVENTF_LEFTDOWN,
      MOUSEEVENTF_RIGHTDOWN, MOUSEEVENTF_MIDDLEDOWN, List.count_cons,
      List.count_nil, h, h2]


theorem evUp_mouse_left_down (c : ℕ) :
    evUp c (Event.mouse MOUSEEVENTF_LEFTDOWN 0) = 0 := by
  simp [evUp, MOUSEEVENTF_LEFTDOWN, MOUSEEVENTF_LEFTUP,
    MOUSEEVENTF_RIGHTUP, MOUSEEVENTF_MIDDLEUP]


theorem evDown_mouse_left_up (c : ℕ) :
    evDown c (Event.mouse MOUSEEVENTF_LEFTUP 0) = 0 := by
  simp [evDown, MOUSEEVENTF_LEFTUP, MOUSEEVENTF_LEFTDOWN,
    MOUSEEVENTF_RIGHTDOWN, MOUSEEVENTF_MIDDLEDOWN]


theorem evUp_mouse_left (c : ℕ) :
    evUp c (Event.mouse MOUSEEVENTF_LEFTUP 0) = [VK_LBUTTON].count c := by
  by_cases h : c = 1
  · subst h
    decide
  · have h2 : ¬(1 = c) := fun hc => h hc.symm
    simp [evUp, VK_LBUTTON, VK_RBUTTON, VK_MBUTTON, MOUSEEVENTF_LEFTUP,
      MOUSEEVENTF_RIGHTUP, MOUSEEVENTF_MIDDLEUP, List.count_cons,
      List.count_nil, h, h2]


theorem evDown_mouse_right (c : ℕ) :
    evDown c (Event.mouse MOUSEEVENTF_RIGHTDOWN 0) = [VK_RBUTTON].count c := by
  by_cases h : c = 2
  · subst h
    decide
  · have h2 : ¬(2 = c) := fun hc => h hc.symm
    simp [evDown, VK_LBUTTON, VK_RBUTTON, VK_MBUTTON, MOUSEEVENTF_RIGHTDOWN,
      MOUSEEVENTF_LEFTDOWN, MOUSEEVENTF_MIDDLEDOWN, List.count_cons,
      List.count_nil, h, h2]


theorem evUp_mouse_right_down (c : ℕ) :
    evUp c (Event.mouse MOUSEEVENTF_RIGHTDOWN 0) = 0 := by
  simp [evUp, MOUSEEVENTF_RIGHTDOWN, MOUSEEVENTF_LEFTUP,
    MOUSEEVENTF_RIGHTUP, MOUSEEVENTF_MIDDLEUP]


theorem evDown_mouse_right_up (c : ℕ) :
    evDown c (Event.mouse MOUSEEVENTF_RIGHTUP 0) = 0 := by
  simp [evDown, MOUSEEVENTF_RIGHTUP, MOUSEEVENTF_LEFTDOWN,
    MOUSEEVENTF_RIGHTDOWN, MOUSEEVENTF_MIDDLEDOWN]


theorem evUp_mouse_right (c : ℕ) :
    evUp c (Event.mouse MOUSEEVENTF_RIGHTUP 0) = [VK_RBUTTON].count c := by
  by_cases h : c = 2
  · subst h
    decide
  · have h2 : ¬(2 = c) := fun hc => h hc.symm
    simp [evUp, VK_LBUTTON, VK_RBUTTON, VK_MBUTTON, MOUSEEVENTF_RIGHTUP,
      MOUSEEVENTF_LEFTUP, MOUSEEVENTF_MIDDLEUP, List.count_cons,
      List.count_nil, h, h2]


theorem evDown_mouse_middle (c : ℕ) :
    evDown c (Event.mouse MOUSEEVENTF_MIDDLEDOWN 0) = [VK_MBUTTON].count c := by
  by_cases h : c = 4
  · subst h
    decide
  · have h2 : ¬(4 = c) := fun hc => h hc.symm
    simp [evDown, VK_LBUTTON, VK_RBUTTON, VK_MBUTTON, MOUSEEVENTF_MIDDLEDOWN,
      MOUSEEVENTF_LEFTDOWN, MOUSEEVENTF_RIGHTDOWN, List.count_cons,
      List.count_nil, h, h2]


theorem evUp_mouse_middle_down (c : ℕ) :
    evUp c (Event.mouse MOUSEEVENTF_MIDDLEDOWN 0) = 0 := by
  simp [evUp, MOUSEEVENTF_MIDDLEDOWN, MOUSEEVENTF_LEFTUP,
    MOUSEEVENTF_RIGHTUP, MOUSEEVENTF_MIDDLEUP]


theorem evDown_mouse_middle_up (c : ℕ) :
    evDown c (Event.mouse MOUSEEVENTF_MIDDLEUP 0) = 0 := by
  simp [evDown, MOUSEEVENTF_MIDDLEUP, MOUSEEVENTF_LEFTDOWN,
    MOUSEEVENTF_RIGHTDOWN, MOUSEEVENTF_MIDDLEDOWN]


theorem evUp_mouse_middle (c : ℕ) :
    evUp c (Event.mouse MOUSEEVENTF_MIDDLEUP 0) = [VK_MBUTTON].count c := by
  by_cases h : c = 4
  · subst h
    decide
  · have h2 : ¬(4 = c) := fun hc => h hc.symm
    simp [evUp, VK_LBUTTON, VK_RBUTTON, VK_MBUTTON, MOUSEEVENTF_MIDDLEUP,
      MOUSEEVENTF_LEFTUP, MOUSEEVENTF_RIGHTUP, List.count_cons,
      List.count_nil, h, h2]


/-- One dispatch preserves the held-sum invariant; its button-tagged
events account exactly for the pressed-key count changes (and a trigger
dispatch emits only trigger-tagged events and leaves the list alone). -/
theorem dispatch_preserves_inv (sl TDZ : ℕ) (bmap : ℕ → ButtonMapping)
    (lKey rKey : List ℕ) (D : Finset ℕ) (s : GopherState) (a : Dispatch)
    (ha : a.inDom D) (hI : InvD bmap D s) :
    InvD bmap D (dispatchAction sl TDZ bmap lKey rKey s a).1 ∧
    (∀ c, (dispatchAction sl TDZ bmap lKey rKey s a).1.pressedKeys.count c
        + trackedUp (dispatchAction sl TDZ bmap lKey rKey s a).2 c
      = s.pressedKeys.count c
        + trackedDown (dispatchAction sl TDZ bmap lKey rKey s a).2 c) := by
  cases a with
  | trigger pad =>
    obtain hsh := handleTriggers_shape TDZ lKey rKey pad s
    simp only [dispatchAction]
    constructor
    · exact ⟨fun b hb => by rw [hsh.1]; exact hI.1 b hb,
        by rw [hsh.2.1, hsh.1]; exact hI.2⟩
    · intro c
      rw [trackedUp_trigger, trackedDown_trigger, hsh.2.1]
  | button STATE pad =>
    have hd : STATE ∈ D := ha
    cases hbm : bmap STATE with
    | keyboard keys =>
      simp only [dispatchAction, hbm]
      exact summary_preserves sl pad s STATE keys (Event.keyDown keys)
        (Event.keyUp keys) _ (mapKeyboard_summary sl pad s STATE keys)
        bmap D hd (by rw [hbm]; rfl) (fun c => rfl) (fun c => rfl)
        (fun c => rfl) (fun c => rfl) hI
    | mouseLeft =>
      simp only [dispatchAction, hbm]
      exact summary_preserves sl pad s STATE [VK_LBUTTON]
        (Event.mouse MOUSEEVENTF_LEFTDOWN 0)
        (Event.mouse MOUSEEVENTF_LEFTUP 0) _
        (mapMouseClick_summary_left sl pad s STATE) bmap D hd
        (by rw [hbm]; rfl) evDown_mouse_left evUp_mouse_left_down
        evDown_mouse_left_up evUp_mouse_left hI
    | mouseRight =>
      simp only [dispatchAction, hbm]
      exact summary_preserves sl pad s STATE [VK_RBUTTON]
        (Event.mouse MOUSEEVENTF_RIGHTDOWN 0)
        (Event.mouse MOUSEEVENTF_RIGHTUP 0) _
        (mapMouseClick_summary_right sl pad s STATE) bmap D hd
        (by rw [hbm]; rfl) evDown_mouse_right evUp_mouse_right_down
        evDown_mouse_right_up evUp_mouse_right hI
    | mouseMiddle =>
      simp only [dispatchAction, hbm]
      exact summary_preserves sl pad s STATE [VK_MBUTTON]
        (Event.mouse MOUSEEVENTF_MIDDLEDOWN 0)
        (Event.mouse MOUSEEVENTF_MIDDLEUP 0) _
        (mapMouseClick_summary_middle sl pad s STATE) bmap D hd
        (by rw [hbm]; rfl) evDown_mouse_middle evUp_mouse_middle_down
        evDown_mouse_middle_up evUp_mouse_middle hI


/-- Running a dispatch sequence preserves the invariant, and the
button-tagged down/up counts in the trace account exactly for the
pressed-key count changes. -/
theorem runActions_inv (sl TDZ : ℕ) (bmap : ℕ → ButtonMapping)
    (lKey rKey : List ℕ) (D : Finset ℕ) :
    ∀ (acts : List Dispatch) (s : GopherState),
      (∀ a ∈ acts, a.inDom D) → InvD bmap D s →
      InvD bmap D (runActions sl TDZ bmap lKey rKey s acts).1 ∧
      (∀ c,
        (runActions sl TDZ bmap lKey rKey s acts).1.pressedKeys.count c
          + trackedUp (runActions sl TDZ bmap lKey rKey s acts).2 c
        = s.pressedKeys.count c
          + trackedDown (runActions sl TDZ bmap lKey rKey s acts).2 c)
  | [], s, _, hI => by
    refine ⟨hI, ?_⟩
    intro c
    simp [runActions, trackedUp, trackedDown]
  | a :: rest, s, hdom, hI => by
    obtain ⟨h1, h2⟩ := dispatch_preserves_inv sl TDZ bmap lKey rKey D s a
      (hdom a (by simp)) hI
    obtain ⟨h3, h4⟩ := runActions_inv sl TDZ bmap lKey rKey D rest
      (dispatchAction sl TDZ bmap lKey rKey s a).1
      (fun x hx => hdom x (by simp [hx])) h1
    simp only [runActions]
    refine ⟨h3, ?_⟩
    intro c
    rw [trackedUp_append, trackedDown_append]
    have ha2 := h2 c
    have ha4 := h4 c
    omega


/-- Claim C1 counterexample: the claimed invariant is false once trigger
dispatches are included.  A single trigger press dispatch emits a key-down
for code 65 (an unmatched down event), yet 65 is not in the pressed-key
list, because `handleTriggers` never touches `_pressedKeys`. -/
theorem pressedKeys_unmatched_counterexample :
    ¬(65 ∈ (runActions 50 30 (fun _ => ButtonMapping.keyboard [65]) [65]
          [97] initState
          [Dispatch.trigger { padIdle with bLeftTrigger := 255 }]).1.pressedKeys
        ↔
      totalUp (runActions 50 30 (fun _ => ButtonMapping.keyboard [65]) [65]
          [97] initState
          [Dispatch.trigger { padIdle with bLeftTrigger := 255 }]).2 65
        < totalDown (runActions 50 30 (fun _ => ButtonMapping.keyboard [65])
          [65] [97] initState
          [Dispatch.trigger { padIdle with bLeftTrigger := 255 }]).2 65) := by
  decide


/-- Claim C1 (amended): over every sequence of per-tick press/release
dispatches, a code is in the pressed-key list if and only if the mapper
has emitted a down event for it — through a mapped keyboard button or a
mapped mouse button — that has not yet been matched with an up event.
Key events emitted by trigger mappings must be excluded: `handleTriggers`
never records its key-downs in the pressed-key list (see the
counterexample), which is exactly what the claim's inclusion of trigger
mappings breaks. -/
theorem pressedKeys_iff_unmatched_tracked (sl TDZ : ℕ)
    (bmap : ℕ → ButtonMapping) (lKey rKey : List ℕ) (D : Finset ℕ)
    (acts : List Dispatch) (hdom : ∀ a ∈ acts, a.inDom D) (c : ℕ) :
    c ∈ (runActions sl TDZ bmap lKey rKey initState acts).1.pressedKeys ↔
      trackedUp (runActions sl TDZ bmap lKey rKey initState acts).2 c
        < trackedDown (runActions sl TDZ bmap lKey rKey initState acts).2
            c := by
  have hinit : InvD bmap D initState := by
    refine ⟨fun b _ => rfl, ?_⟩
    simp [initState, initClick, InvD]
  obtain ⟨_, hc⟩ := runActions_inv sl TDZ bmap lKey rKey D acts initState
    hdom hinit
  have h := hc c
  have hcount0 : (initState.pressedKeys).count c = 0 := rfl
  rw [hcount0] at h
  have hmem : c ∈ (runActions sl TDZ bmap lKey rKey initState
      acts).1.pressedKeys
      ↔ 0 < ((runActions sl TDZ bmap lKey rKey initState
          acts).1.pressedKeys).count c := by
    rw [← Multiset.coe_count, Multiset.count_pos, Multiset.mem_coe]
  rw [hmem]
  omega


/-- Witness for the amended C1: one keyboard press dispatch (button A
mapped to code 65) followed by a trigger press — 65 is held with one
unmatched tracked down event. -/
theorem pressedKeys_iff_unmatched_tracked_witness :
    65 ∈ (runActions 50 30 (fun _ => ButtonMapping.keyboard [65]) [65] [97]
        initState
        [Dispatch.button 4096 { padIdle with wButtons := 4096 },
         Dispatch.trigger { padIdle with bLeftTrigger := 255 }]).1.pressedKeys
      ↔
    trackedUp (runActions 50 30 (fun _ => ButtonMapping.keyboard [65]) [65]
        [97] initState
        [Dispatch.button 4096 { padIdle with wButtons := 4096 },
         Dispatch.trigger { padIdle with bLeftTrigger := 255 }]).2 65
      < trackedDown (runActions 50 30 (fun _ => ButtonMapping.keyboard [65])
        [65] [97] initState
        [Dispatch.button 4096 { padIdle with wButtons := 4096 },
         Dispatch.trigger { padIdle with bLeftTrigger := 255 }]).2 65 :=
  pressedKeys_iff_unmatched_tracked 50 30
    (fun _ => ButtonMapping.keyboard [65]) [65] [97] {4096}
    [Dispatch.button 4096 { padIdle with wButtons := 4096 },
     Dispatch.trigger { padIdle with bLeftTrigger := 255 }]
    (by decide) 65
